import Mathlib

/-!
Verification of the mcp-postgres-server adapter.

The repository contains four TypeScript variants of the same MCP adapter:
* `src/unnamed/part_000` — pooled connections, tools
  `test_connection / execute_query / create_table / insert_data`;
* `src/unnamed/part_001` (first half) — per-call credentials, a fresh `pg.Client`
  per invocation, same four tools;
* `src/unnamed/part_001` (second half) and `src/build/postgres-server.js` — pooled
  connections, tools `query / test_connection / create_table`, plus the
  resource (schema catalog) handlers;
* `src/unnamed/part_002` — fixed credentials but a fresh `pg.Client` per call.

This file gives a shallow embedding of those handlers.  The `pg` driver and the
database are abstracted by a `Driver` record: `sem` interprets a SQL text on a
database state, `acquire` models `pool.connect()` and `connect` models
`client.connect()` (both can fail).  Transactions are modelled by a session
state on the connection: inside a transaction statements act on a pending copy
of the database which is discarded by `ROLLBACK`; a read-only transaction
rejects any statement whose interpretation would change the state, which is
exactly the database-side enforcement the code relies on.  Each embedded
operation returns the protocol answer, the final database state and the trace
of connection events it performed.
-/

/-- A single quote character, used by the DML serializer (`'${val}'`). -/
def singleQuote : String := String.singleton (Char.ofNat 39)

/-- Model of the JavaScript values that can appear in a tool call's
`arguments` object and in the rows returned by the driver.  Numbers are
modelled as integers (the claims only exercise integral numbers). -/
inductive JVal where
  | str (s : String)
  | num (n : Int)
  | bool (b : Bool)
  | null
  | arr (elems : List JVal)
  | obj (fields : List (String × JVal))

mutual

/-- JavaScript `String(val)` coercion as used by template literals and
`Array.prototype.join`.  Arrays join their elements with a comma and plain
objects coerce to `[object Object]`; the claims only exercise scalars. -/
def jsToString : JVal → String
  | .str s => s
  | .num n => toString n
  | .bool b => if b then "true" else "false"
  | .null => "null"
  | .arr xs => String.intercalate "," (jsToStringList xs)
  | .obj _ => "[object Object]"

/-- `String(·)` mapped over the elements of an array value. -/
def jsToStringList : List JVal → List String
  | [] => []
  | x :: xs => jsToString x :: jsToStringList xs

end

/-- Template interpolation `${x}` where `x` may be `undefined` (absent). -/
def jsTemplate : Option JVal → String
  | none => "undefined"
  | some v => jsToString v

/-- Property access `v.k` on a JavaScript value: objects look the key up,
any other value yields `undefined` (modelled as `none`). -/
def jsGetField (v : JVal) (k : String) : Option JVal :=
  match v with
  | .obj fields =>
    match fields.find? (fun f => f.1 = k) with
    | some f => some f.2
    | none => none
  | _ => none

/-- `Object.keys(record)` for an object literal: keys in insertion order.
Non-objects are modelled as having no enumerable keys (the claims only
exercise object records). -/
def jsObjectKeys : JVal → List String
  | .obj fields => fields.map (fun f => f.1)
  | _ => []

/-- `Object.values(record)`, matching `jsObjectKeys`. -/
def jsObjectValues : JVal → List JVal
  | .obj fields => fields.map (fun f => f.2)
  | _ => []

/-- The `arguments` object of a tool call: a string-keyed record. -/
abbrev Args : Type := List (String × JVal)

/-- Field lookup in an `arguments` object (JS objects have unique keys, so the
first binding wins). -/
def jsLookup : Args → String → Option JVal
  | [], _ => none
  | (k, v) :: rest, key => if k = key then some v else jsLookup rest key

/-- One `{ type, text }` element of a ToolResponse's `content` array. -/
structure ContentItem where
  type : String
  text : String
deriving DecidableEq, Repr

/-- The uniform response envelope returned by every executor.  A missing
`isError` field means `false`. -/
structure ToolResponse where
  content : List ContentItem
  isError : Bool := false
deriving DecidableEq, Repr

/-- A successful single-text response. -/
def okTextResp (t : String) : ToolResponse :=
  { content := [⟨"text", t⟩] }

/-- An error-flagged single-text response. -/
def errTextResp (t : String) : ToolResponse :=
  { content := [⟨"text", t⟩], isError := true }

/-- Protocol error codes of the MCP SDK that the code uses. -/
inductive ErrCode where
  | methodNotFound
deriving DecidableEq, Repr

/-- An exception that escapes a handler across the adapter boundary:
either an `McpError` or a plain JavaScript `Error` (the `query` variant throws
`new Error(...)`, and raw driver errors propagate unwrapped). -/
inductive Thrown where
  | mcpError (code : ErrCode) (msg : String)
  | jsError (msg : String)
deriving DecidableEq, Repr

/-- `true` exactly on an `McpError` with code `MethodNotFound`. -/
def Thrown.isMethodNotFound : Thrown → Bool
  | .mcpError .methodNotFound _ => true
  | _ => false

/-- Connection lifecycle events recorded by the embedding:
`acquire`/`release` for the pool, `connect`/`closeConn` for a one-shot
`pg.Client` (`closeConn` is `client.end()`), and `stmt s` for each SQL text
sent on the connection. -/
inductive Ev where
  | acquire
  | release
  | connect
  | closeConn
  | stmt (s : String)
deriving DecidableEq, Repr

/-- Number of occurrences of an event in a trace. -/
def countEv (e : Ev) : List Ev → Nat
  | [] => 0
  | x :: xs => (if x = e then 1 else 0) + countEv e xs

/-- The rows a statement returns: an array of JavaScript values
(normally objects, one per row). -/
abbrev Rows : Type := List JVal

/-- The abstract `pg` driver together with the database it talks to.
`sem` interprets one SQL text on a database state, producing the new state and
the result rows, or a driver error message. -/
structure Driver (DB : Type) where
  acquire : Except String Unit
  connect : Except String Unit
  sem : String → DB → Except String (DB × Rows)

/-- `true` when an `Except` carries a value. -/
def exceptOk {ε α : Type} : Except ε α → Bool
  | .ok _ => true
  | .error _ => false

/-- Transaction state of one connection.  Inside a transaction, statements act
on a `pending` copy of the database that is only merged on commit (never
issued by this code) and discarded by `ROLLBACK`.  After an error inside a
transaction the session is aborted until the transaction block ends. -/
inductive Session (DB : Type) where
  | auto
  | txn (pending : DB) (readOnly : Bool)
  | txnAborted

/-- Connection-local execution state threaded through an operation:
the global database, the session and the recorded event trace. -/
structure St (DB : Type) where
  db : DB
  sess : Session DB
  events : List Ev

/-- The exact transaction-control texts the code sends. -/
def beginReadOnlySQL : String := "BEGIN TRANSACTION READ ONLY"

def rollbackSQL : String := "ROLLBACK"

def readOnlyViolationMsg : String :=
  "cannot execute statement in a read-only transaction"

def txnAbortedMsg : String :=
  "current transaction is aborted, commands ignored until end of transaction block"

/-- `client.query(text)`: interpret one SQL text on the connection.
`BEGIN TRANSACTION READ ONLY` opens a read-only transaction (a repeated BEGIN
inside a transaction is only a warning in PostgreSQL, so it succeeds and keeps
the state); `ROLLBACK` always succeeds and discards the pending state; any
other text goes to the driver.  In autocommit mode a successful statement
commits immediately; inside a read-only transaction a statement whose
interpretation would change the state is rejected by the database. -/
def stepStmt {DB : Type} [DecidableEq DB] (d : Driver DB) (q : String) (st : St DB) :
    Except String Rows × St DB :=
  if q = beginReadOnlySQL then
    match st.sess with
    | .auto => (.ok [], ⟨st.db, .txn st.db true, st.events ++ [.stmt q]⟩)
    | s => (.ok [], ⟨st.db, s, st.events ++ [.stmt q]⟩)
  else if q = rollbackSQL then
    (.ok [], ⟨st.db, .auto, st.events ++ [.stmt q]⟩)
  else
    match st.sess with
    | .auto =>
      match d.sem q st.db with
      | .ok (db', rows) => (.ok rows, ⟨db', .auto, st.events ++ [.stmt q]⟩)
      | .error e => (.error e, ⟨st.db, .auto, st.events ++ [.stmt q]⟩)
    | .txn pending ro =>
      match d.sem q pending with
      | .ok (db', rows) =>
        if ro ∧ db' ≠ pending then
          (.error readOnlyViolationMsg, ⟨st.db, .txnAborted, st.events ++ [.stmt q]⟩)
        else
          (.ok rows, ⟨st.db, .txn db' ro, st.events ++ [.stmt q]⟩)
      | .error e => (.error e, ⟨st.db, .txnAborted, st.events ++ [.stmt q]⟩)
    | .txnAborted =>
      (.error txnAbortedMsg, ⟨st.db, .txnAborted, st.events ++ [.stmt q]⟩)

/-! ## JSON serialization (`JSON.stringify(x, null, 2)`) -/

/-- Four-digit hexadecimal rendering used by `\uXXXX` escapes. -/
def hex4 (n : Nat) : String :=
  let digit := fun (k : Nat) =>
    if k < 10 then String.singleton (Char.ofNat (48 + k))
    else String.singleton (Char.ofNat (87 + k))
  digit (n / 4096 % 16) ++ digit (n / 256 % 16) ++ digit (n / 16 % 16) ++ digit (n % 16)

/-- JSON string escaping as performed by `JSON.stringify`. -/
def jsonEscapeChar (c : Char) : String :=
  if c = Char.ofNat 34 then "\\\""
  else if c = Char.ofNat 92 then "\\\\"
  else if c = Char.ofNat 10 then "\\n"
  else if c = Char.ofNat 13 then "\\r"
  else if c = Char.ofNat 9 then "\\t"
  else if c = Char.ofNat 8 then "\\b"
  else if c = Char.ofNat 12 then "\\f"
  else if c.toNat < 32 then "\\u" ++ hex4 c.toNat
  else String.singleton c

/-- A JSON-quoted string literal. -/
def jsonQuote (s : String) : String :=
  "\"" ++ String.join (s.data.map jsonEscapeChar) ++ "\""

/-- Spaces used to indent a line at nesting depth `i`. -/
def jsonIndent (i : Nat) : String := String.mk (List.replicate i ' ')

mutual

/-- `JSON.stringify(v, null, 2)` at indentation level `i`: pretty-printed JSON
with two-space indentation, arrays and objects in element order. -/
def jsonSer (i : Nat) : JVal → String
  | .str s => jsonQuote s
  | .num n => toString n
  | .bool b => if b then "true" else "false"
  | .null => "null"
  | .arr xs =>
    match jsonSerItems (i + 2) xs with
    | [] => "[]"
    | l => "[\n" ++ String.intercalate ",\n" l ++ "\n" ++ jsonIndent i ++ "]"
  | .obj fs =>
    match jsonSerFields (i + 2) fs with
    | [] => "\x7b\x7d"
    | l => "\x7b\n" ++ String.intercalate ",\n" l ++ "\n" ++ jsonIndent i ++ "\x7d"

/-- Array items serialized one per line at indentation `i`. -/
def jsonSerItems (i : Nat) : List JVal → List String
  | [] => []
  | x :: xs => (jsonIndent i ++ jsonSer i x) :: jsonSerItems i xs

/-- Object fields serialized as `"key": value` lines at indentation `i`. -/
def jsonSerFields (i : Nat) : List (String × JVal) → List String
  | [] => []
  | (k, v) :: fs => (jsonIndent i ++ jsonQuote k ++ ": " ++ jsonSer i v) :: jsonSerFields i fs

end

/-- `JSON.stringify(result.rows, null, 2)`: the row array serialized from the
top level. -/
def stringifyRows (rows : Rows) : String := jsonSer 0 (JVal.arr rows)

/-! ## SQL text builders (string interpolation exactly as in the source) -/

/-- `` `${col.name} ${col.type}` `` for one column definition object. -/
def buildColumnDef (col : JVal) : String :=
  jsTemplate (jsGetField col "name") ++ " " ++ jsTemplate (jsGetField col "type")

/-- `` `CREATE TABLE ${tableName} (${columnDefinitions})` `` where the column
definitions are joined with `', '`.  Names and types are injected verbatim. -/
def buildCreateTable (tableName : String) (columns : List JVal) : String :=
  "CREATE TABLE " ++ tableName ++ " (" ++
    String.intercalate ", " (columns.map buildColumnDef) ++ ")"

/-- The per-value serialization of `insert_data`:
`typeof val === 'string' ? `'${val}'` : val`, the non-string branch being
coerced by `Array.prototype.join`. -/
def serializeInsertVal (v : JVal) : String :=
  match v with
  | .str s => singleQuote ++ s ++ singleQuote
  | _ => jsToString v

/-- `` `INSERT INTO ${tableName} (${columns}) VALUES (${values})` `` for one
record, keys and serialized values joined with `', '`. -/
def buildInsert (tableName : String) (record : JVal) : String :=
  "INSERT INTO " ++ tableName ++ " (" ++
    String.intercalate ", " (jsObjectKeys record) ++ ") VALUES (" ++
    String.intercalate ", " ((jsObjectValues record).map serializeInsertVal) ++ ")"

/-! ## Executors

Each executor returns an `Outcome`: either a `ToolResponse` or a `Thrown`
exception that escaped the handler, together with the final database state and
the connection-event trace. -/

/-- Result of one embedded operation. -/
structure Outcome (DB : Type) where
  result : Except Thrown ToolResponse
  db : DB
  events : List Ev

/-- `true` when the operation threw across the adapter boundary. -/
def Outcome.isThrown {DB : Type} (o : Outcome DB) : Bool :=
  match o.result with
  | .error _ => true
  | .ok _ => false

/-- `true` when the operation returned a non-error ToolResponse. -/
def Outcome.isOkResp {DB : Type} (o : Outcome DB) : Bool :=
  match o.result with
  | .ok r => !r.isError
  | .error _ => false

/-- `true` when the operation returned an error-flagged ToolResponse. -/
def Outcome.isErrResp {DB : Type} (o : Outcome DB) : Bool :=
  match o.result with
  | .ok r => r.isError
  | .error _ => false

/-- The `pg` message for `client.query(undefined)` (and other non-string query
texts): the driver rejects the call without sending anything to the server. -/
def nullQueryMsg : String := "Client was passed a null or undefined query"

/-- The TypeError thrown by destructuring an absent `arguments` object
(`const ... = undefined`); it is raised outside every try block. -/
def destructureMsg : String := "Cannot destructure property of undefined"

/-- `test_connection` (all variants): open a fresh client and immediately
close it; a connection failure is caught and reported in the envelope. -/
def testConnection {DB : Type} (d : Driver DB) (db : DB) : Outcome DB :=
  match d.connect with
  | .ok _ => ⟨.ok (okTextResp "数据库连接成功"), db, [.connect, .closeConn]⟩
  | .error e => ⟨.ok (errTextResp ("数据库连接失败: " ++ e)), db, []⟩

/-- Body of the pooled `execute_query`/`query` executor, entered after the
connection was acquired (`part_000` lines 202-224, build lines 159-181):
`BEGIN TRANSACTION READ ONLY`, the caller's statement, and in the `finally`
a `ROLLBACK` whose own failure is swallowed by `.catch(console.warn)`.
`key` is the argument field the variant destructures (`query` or `sql`). -/
def executeQueryPooledBody {DB : Type} [DecidableEq DB] (d : Driver DB) (key : String)
    (a : Args) (db : DB) : ToolResponse × St DB :=
  let st0 : St DB := ⟨db, .auto, [.acquire]⟩
  let pB := stepStmt d beginReadOnlySQL st0
  let pq : ToolResponse × St DB :=
    match pB.1 with
    | .error e => (errTextResp ("查询执行失败: " ++ e), pB.2)
    | .ok _ =>
      match jsLookup a key with
      | some (.str q) =>
        let pQ := stepStmt d q pB.2
        (match pQ.1 with
         | .ok rows => okTextResp (stringifyRows rows)
         | .error e => errTextResp ("查询执行失败: " ++ e), pQ.2)
      | _ => (errTextResp ("查询执行失败: " ++ nullQueryMsg), pB.2)
  let pR := stepStmt d rollbackSQL pq.2
  (pq.1, pR.2)

/-- Pooled `execute_query` (`part_000`) / `query` (build): the `arguments`
object is destructured and the pool connection acquired before the try block,
so an absent `arguments` object or an acquisition failure throws. -/
def executeQueryPooled {DB : Type} [DecidableEq DB] (d : Driver DB) (key : String)
    (args? : Option Args) (db : DB) : Outcome DB :=
  match args? with
  | none => ⟨.error (.jsError destructureMsg), db, []⟩
  | some a =>
    match d.acquire with
    | .error e => ⟨.error (.jsError e), db, []⟩
    | .ok _ =>
      let p := executeQueryPooledBody d key a db
      ⟨.ok p.1, p.2.db, p.2.events ++ [.release]⟩

/-- Body of the pooled `create_table` executor (`part_000` lines 231-254):
build the DDL, run it, catch driver errors, release in the `finally`.
A non-array `columns` makes `columns.map` throw a TypeError that the catch
turns into the error envelope. -/
def createTablePooledBody {DB : Type} [DecidableEq DB] (d : Driver DB)
    (a : Args) (db : DB) : ToolResponse × St DB :=
  let st0 : St DB := ⟨db, .auto, [.acquire]⟩
  let tn := jsTemplate (jsLookup a "tableName")
  match jsLookup a "columns" with
  | some (.arr cols) =>
    let pQ := stepStmt d (buildCreateTable tn cols) st0
    (match pQ.1 with
     | .ok _ => okTextResp ("表 " ++ tn ++ " 创建成功")
     | .error e => errTextResp ("创建表失败: " ++ e), pQ.2)
  | _ => (errTextResp ("创建表失败: columns.map is not a function"), st0)

/-- Pooled `create_table`: destructuring and acquisition precede the try. -/
def createTablePooled {DB : Type} [DecidableEq DB] (d : Driver DB)
    (args? : Option Args) (db : DB) : Outcome DB :=
  match args? with
  | none => ⟨.error (.jsError destructureMsg), db, []⟩
  | some a =>
    match d.acquire with
    | .error e => ⟨.error (.jsError e), db, []⟩
    | .ok _ =>
      let p := createTablePooledBody d a db
      ⟨.ok p.1, p.2.db, p.2.events ++ [.release]⟩

/-- The per-record loop of `insert_data`: one `INSERT` statement per record,
sequentially on the same connection; the first failure stops the loop. -/
def insertLoop {DB : Type} [DecidableEq DB] (d : Driver DB) (tn : String) :
    List JVal → St DB → Except String Unit × St DB
  | [], st => (.ok (), st)
  | r :: rs, st =>
    let p := stepStmt d (buildInsert tn r) st
    match p.1 with
    | .ok _ => insertLoop d tn rs p.2
    | .error e => (.error e, p.2)

/-- Body of the pooled `insert_data` executor (`part_000` lines 261-290):
iterate the records, catch the first failure, release in the `finally`.
A non-array `data` makes `for...of` throw a TypeError that the catch turns
into the error envelope. -/
def insertDataPooledBody {DB : Type} [DecidableEq DB] (d : Driver DB)
    (a : Args) (db : DB) : ToolResponse × St DB :=
  let st0 : St DB := ⟨db, .auto, [.acquire]⟩
  let tn := jsTemplate (jsLookup a "tableName")
  match jsLookup a "data" with
  | some (.arr records) =>
    let p := insertLoop d tn records st0
    (match p.1 with
     | .ok _ =>
       okTextResp ("成功向 " ++ tn ++ " 插入 " ++ toString records.length ++ " 条数据")
     | .error e => errTextResp ("插入数据失败: " ++ e), p.2)
  | _ => (errTextResp ("插入数据失败: data is not iterable"), st0)

/-- Pooled `insert_data`: destructuring and acquisition precede the try. -/
def insertDataPooled {DB : Type} [DecidableEq DB] (d : Driver DB)
    (args? : Option Args) (db : DB) : Outcome DB :=
  match args? with
  | none => ⟨.error (.jsError destructureMsg), db, []⟩
  | some a =>
    match d.acquire with
    | .error e => ⟨.error (.jsError e), db, []⟩
    | .ok _ =>
      let p := insertDataPooledBody d a db
      ⟨.ok p.1, p.2.db, p.2.events ++ [.release]⟩

/-! ## Per-call executors (`part_001` first half / `part_002`)

These open a fresh `pg.Client` inside the try block, run their statements in
autocommit mode (no transaction), and call `client.end()` only on the success
path — there is no `finally`, so an error after a successful connect leaves
the connection open. -/

/-- Per-call `execute_query` (`part_002` lines 127-152, `part_001` lines
172-197): connect, run the raw statement with no transaction wrapper, and
close only when everything succeeded. -/
def executeQueryPerCall {DB : Type} [DecidableEq DB] (d : Driver DB)
    (args? : Option Args) (db : DB) : Outcome DB :=
  match args? with
  | none => ⟨.error (.jsError destructureMsg), db, []⟩
  | some a =>
    match d.connect with
    | .error e => ⟨.ok (errTextResp ("查询执行失败: " ++ e)), db, []⟩
    | .ok _ =>
      match jsLookup a "query" with
      | some (.str q) =>
        let p := stepStmt d q ⟨db, .auto, [.connect]⟩
        match p.1 with
        | .ok rows => ⟨.ok (okTextResp (stringifyRows rows)), p.2.db, p.2.events ++ [.closeConn]⟩
        | .error e => ⟨.ok (errTextResp ("查询执行失败: " ++ e)), p.2.db, p.2.events⟩
      | _ => ⟨.ok (errTextResp ("查询执行失败: " ++ nullQueryMsg)), db, [.connect]⟩

/-- Per-call `create_table` (`part_002` lines 153-181, `part_001` lines
199-230): connect, build and run the DDL, close only on success. -/
def createTablePerCall {DB : Type} [DecidableEq DB] (d : Driver DB)
    (args? : Option Args) (db : DB) : Outcome DB :=
  match args? with
  | none => ⟨.error (.jsError destructureMsg), db, []⟩
  | some a =>
    match d.connect with
    | .error e => ⟨.ok (errTextResp ("创建表失败: " ++ e)), db, []⟩
    | .ok _ =>
      let tn := jsTemplate (jsLookup a "tableName")
      match jsLookup a "columns" with
      | some (.arr cols) =>
        let p := stepStmt d (buildCreateTable tn cols) ⟨db, .auto, [.connect]⟩
        match p.1 with
        | .ok _ => ⟨.ok (okTextResp ("表 " ++ tn ++ " 创建成功")), p.2.db, p.2.events ++ [.closeConn]⟩
        | .error e => ⟨.ok (errTextResp ("创建表失败: " ++ e)), p.2.db, p.2.events⟩
      | _ => ⟨.ok (errTextResp ("创建表失败: columns.map is not a function")), db, [.connect]⟩

/-- Per-call `insert_data` (`part_002` lines 182-213, `part_001` lines
232-269): connect, run the per-record loop, close only on success. -/
def insertDataPerCall {DB : Type} [DecidableEq DB] (d : Driver DB)
    (args? : Option Args) (db : DB) : Outcome DB :=
  match args? with
  | none => ⟨.error (.jsError destructureMsg), db, []⟩
  | some a =>
    match d.connect with
    | .error e => ⟨.ok (errTextResp ("插入数据失败: " ++ e)), db, []⟩
    | .ok _ =>
      let tn := jsTemplate (jsLookup a "tableName")
      match jsLookup a "data" with
      | some (.arr records) =>
        let p := insertLoop d tn records ⟨db, .auto, [.connect]⟩
        match p.1 with
        | .ok _ =>
          ⟨.ok (okTextResp ("成功向 " ++ tn ++ " 插入 " ++ toString records.length ++ " 条数据")),
            p.2.db, p.2.events ++ [.closeConn]⟩
        | .error e => ⟨.ok (errTextResp ("插入数据失败: " ++ e)), p.2.db, p.2.events⟩
      | _ => ⟨.ok (errTextResp ("插入数据失败: data is not iterable")), db, [.connect]⟩

/-! ## Dispatchers (CallToolRequestSchema handlers) -/

/-- The tool names the `part_000` dispatcher recognizes. -/
def tools000 : List String := ["test_connection", "execute_query", "create_table", "insert_data"]

/-- The tool names the `query`-variant dispatcher (build /
`part_001` second half) recognizes. -/
def toolsQuery : List String := ["query", "test_connection", "create_table"]

/-- The `part_000` CallToolRequestSchema handler (lines 157-170): a switch on
the tool name; an unrecognized name throws
`McpError(ErrorCode.MethodNotFound, 未知工具: name)`. -/
def dispatch000 {DB : Type} [DecidableEq DB] (d : Driver DB) (name : String)
    (args? : Option Args) (db : DB) : Outcome DB :=
  if name = "test_connection" then testConnection d db
  else if name = "execute_query" then executeQueryPooled d "query" args? db
  else if name = "create_table" then createTablePooled d args? db
  else if name = "insert_data" then insertDataPooled d args? db
  else ⟨.error (.mcpError .methodNotFound ("未知工具: " ++ name)), db, []⟩

/-- The `query`-variant CallToolRequestSchema handler (build lines 121-132,
`part_001` lines 498-509): an unrecognized name throws a plain
`new Error(未知工具: name)`, not an `McpError`. -/
def dispatchQuery {DB : Type} [DecidableEq DB] (d : Driver DB) (name : String)
    (args? : Option Args) (db : DB) : Outcome DB :=
  if name = "query" then executeQueryPooled d "sql" args? db
  else if name = "test_connection" then testConnection d db
  else if name = "create_table" then createTablePooled d args? db
  else ⟨.error (.jsError ("未知工具: " ++ name)), db, []⟩

/-! ## Schema catalog (resource handlers, `part_000` lines 58-94) -/

/-- One entry of the `list_resources` answer. -/
structure ResourceDescriptor where
  uri : String
  mimeType : String
  name : String
deriving DecidableEq, Repr

/-- Result of the `list_resources` handler: the descriptor list or a thrown
error (the handler has no catch, only a `finally` that releases). -/
structure ListResOutcome (DB : Type) where
  result : Except String (List ResourceDescriptor)
  db : DB
  events : List Ev

/-- The catalog query the handler sends. -/
def catalogTablesSQL : String :=
  "SELECT table_name FROM information_schema.tables WHERE table_schema = " ++
    singleQuote ++ "public" ++ singleQuote

/-- The descriptor built from one catalog row:
uri `` `postgres://${row.table_name}/schema` ``, mimeType
`application/json`, display name `` `"${row.table_name}" 数据库架构` ``. -/
def rowResource (row : JVal) : ResourceDescriptor :=
  let t := jsTemplate (jsGetField row "table_name")
  ⟨"postgres://" ++ t ++ "/schema", "application/json", "\"" ++ t ++ "\" 数据库架构"⟩

/-- The ListResourcesRequestSchema handler: acquire, query the catalog, map
each row to a descriptor; the connection is released in the `finally` even
when the query fails (in which case the error propagates). -/
def listResources {DB : Type} [DecidableEq DB] (d : Driver DB) (db : DB) : ListResOutcome DB :=
  match d.acquire with
  | .error e => ⟨.error e, db, []⟩
  | .ok _ =>
    let p := stepStmt d catalogTablesSQL ⟨db, .auto, [.acquire]⟩
    match p.1 with
    | .ok rows => ⟨.ok (rows.map rowResource), p.2.db, p.2.events ++ [.release]⟩
    | .error e => ⟨.error e, p.2.db, p.2.events ++ [.release]⟩

/-- JavaScript `str.split(sep)` for a one-character separator, on character
lists: every occurrence splits, empty segments are kept. -/
def splitCharsAux (sep : Char) : List Char → List (List Char)
  | [] => [[]]
  | c :: cs =>
    if c = sep then [] :: splitCharsAux sep cs
    else
      match splitCharsAux sep cs with
      | [] => [[c]]
      | h :: t => (c :: h) :: t

/-- JavaScript `str.split('/')` on strings. -/
def jsSplit (sep : Char) (s : String) : List String :=
  (splitCharsAux sep s.data).map (fun l => ⟨l⟩)

/-- The table-name extraction of the ReadResourceRequestSchema handler
(`part_000` line 79): `request.params.uri.split('/')[2]`, `undefined` when the
URI has fewer than three segments. -/
def readResourceTableName (uri : String) : Option String :=
  (jsSplit '/' uri)[2]?

/-! ## Derived predicates and concrete drivers used by the statements below -/

/-- `true` when a ToolResponse's `content` is a single element of type
`text`. -/
def respSingleText (r : ToolResponse) : Bool :=
  match r.content with
  | [c] => c.type = "text"
  | _ => false

/-- Envelope invariant: whenever the operation returned a ToolResponse (rather
than throwing), its `content` is a single element of type `text`. -/
def singleTextOk {DB : Type} (o : Outcome DB) : Bool :=
  match o.result with
  | .error _ => true
  | .ok r => respSingleText r

/-- The throw condition of the `part_000` dispatcher, as established below:
unrecognized names throw, `test_connection` never throws, and the other three
tools throw exactly when the `arguments` object is absent (destructuring
TypeError) or the pool acquisition fails — both happen outside the try. -/
def throwCond000 (name : String) (args? : Option Args) (acq : Except String Unit) : Bool :=
  if name = "test_connection" then false
  else if name = "execute_query" ∨ name = "create_table" ∨ name = "insert_data" then
    (args?.isNone || !exceptOk acq)
  else true

/-- The throw condition of the `query`-variant dispatcher. -/
def throwCondQuery (name : String) (args? : Option Args) (acq : Except String Unit) : Bool :=
  if name = "test_connection" then false
  else if name = "query" ∨ name = "create_table" then
    (args?.isNone || !exceptOk acq)
  else true

/-- A database/driver on which every statement succeeds and returns no rows,
leaving the state unchanged. -/
def okDriver : Driver Nat :=
  ⟨.ok (), .ok (), fun _ n => .ok (n, [])⟩

/-- A driver on which `SELECT 1 AS one` returns the single row
`{ one: 1 }` without touching the state; everything else is a syntax error. -/
def selOneDriver : Driver Nat :=
  ⟨.ok (), .ok (), fun q n =>
    if q = "SELECT 1 AS one" then .ok (n, [JVal.obj [("one", JVal.num 1)]])
    else .error "syntax error"⟩

/-- A driver on which `DROP TABLE users` is a write: it increments the state.
Everything else succeeds without effect. -/
def dropDriver : Driver Nat :=
  ⟨.ok (), .ok (), fun q n =>
    if q = "DROP TABLE users" then .ok (n + 1, []) else .ok (n, [])⟩

/-- A driver whose statements all fail (e.g. a dropped backend connection). -/
def failSemDriver : Driver Nat :=
  ⟨.ok (), .ok (), fun _ _ => .error "boom"⟩

/-- A driver whose pool acquisition fails. -/
def noAcquireDriver : Driver Nat :=
  ⟨.error "connection refused", .ok (), fun _ n => .ok (n, [])⟩

/-- A driver counting successful inserts, on which inserting the record
`{ id: 3 }` into `t` violates a duplicate key. -/
def dupKeyDriver : Driver Nat :=
  ⟨.ok (), .ok (), fun q n =>
    if q = buildInsert "t" (JVal.obj [("id", JVal.num 3)]) then .error "duplicate key value"
    else .ok (n + 1, [])⟩

/-! ## Basic lemmas -/

theorem data_head_append (a x : String) (c : Char) (h : a.data.head? = some c) :
    (a ++ x).data.head? = some c := by
  rw [String.data_append]
  cases ha : a.data with
  | nil => rw [ha] at h; cases h
  | cons hd tl =>
    rw [ha] at h
    simp only [List.head?] at h
    simp [ha, List.cons_append, List.head?, h]

theorem ne_of_head (s t : String) (h : s.data.head? ≠ t.data.head?) : s ≠ t :=
  fun he => h (by rw [he])

theorem buildInsert_head (tn : String) (r : JVal) :
    (buildInsert tn r).data.head? = some 'I' := by
  unfold buildInsert
  repeat apply data_head_append
  decide

theorem buildInsert_ne_begin (tn : String) (r : JVal) :
    buildInsert tn r ≠ beginReadOnlySQL := by
  apply ne_of_head
  rw [buildInsert_head]
  decide

theorem buildInsert_ne_rollback (tn : String) (r : JVal) :
    buildInsert tn r ≠ rollbackSQL := by
  apply ne_of_head
  rw [buildInsert_head]
  decide

theorem buildCreateTable_head (tn : String) (cols : List JVal) :
    (buildCreateTable tn cols).data.head? = some 'C' := by
  unfold buildCreateTable
  repeat apply data_head_append
  decide

theorem buildCreateTable_ne_begin (tn : String) (cols : List JVal) :
    buildCreateTable tn cols ≠ beginReadOnlySQL := by
  apply ne_of_head
  rw [buildCreateTable_head]
  decide

theorem buildCreateTable_ne_rollback (tn : String) (cols : List JVal) :
    buildCreateTable tn cols ≠ rollbackSQL := by
  apply ne_of_head
  rw [buildCreateTable_head]
  decide

theorem stepStmt_begin {DB : Type} [DecidableEq DB] (d : Driver DB) (st : St DB)
    (h : st.sess = Session.auto) :
    stepStmt d beginReadOnlySQL st =
      (.ok [], ⟨st.db, .txn st.db true, st.events ++ [.stmt beginReadOnlySQL]⟩) := by
  unfold stepStmt
  rw [if_pos rfl, h]

theorem stepStmt_rollback {DB : Type} [DecidableEq DB] (d : Driver DB) (st : St DB) :
    stepStmt d rollbackSQL st =
      (.ok [], ⟨st.db, .auto, st.events ++ [.stmt rollbackSQL]⟩) := by
  unfold stepStmt
  rw [if_neg (by decide : ¬ (rollbackSQL = beginReadOnlySQL)), if_pos rfl]

theorem stepStmt_auto {DB : Type} [DecidableEq DB] (d : Driver DB) (q : String) (st : St DB)
    (hq1 : q ≠ beginReadOnlySQL) (hq2 : q ≠ rollbackSQL) (h : st.sess = Session.auto) :
    stepStmt d q st =
      match d.sem q st.db with
      | .ok (db', rows) => (.ok rows, ⟨db', .auto, st.events ++ [.stmt q]⟩)
      | .error e => (.error e, ⟨st.db, .auto, st.events ++ [.stmt q]⟩) := by
  unfold stepStmt
  rw [if_neg hq1, if_neg hq2, h]

theorem stepStmt_txn_db {DB : Type} [DecidableEq DB] (d : Driver DB) (q : String) (st : St DB)
    (p : DB) (ro : Bool) (h : st.sess = Session.txn p ro) :
    (stepStmt d q st).2.db = st.db := by
  unfold stepStmt
  split_ifs with h1 h2
  · simp only [h]
  · rfl
  · simp only [h]
    cases hsem : d.sem q p with
    | ok pr =>
      obtain ⟨db', rows⟩ := pr
      simp only
      split_ifs <;> rfl
    | error e => rfl

theorem stepStmt_aborted_db {DB : Type} [DecidableEq DB] (d : Driver DB) (q : String)
    (st : St DB) (h : st.sess = Session.txnAborted) :
    (stepStmt d q st).2.db = st.db := by
  unfold stepStmt
  split_ifs with h1 h2
  · simp only [h]
  · rfl
  · simp only [h]

theorem stepStmt_events {DB : Type} [DecidableEq DB] (d : Driver DB) (q : String) (st : St DB) :
    (stepStmt d q st).2.events = st.events ++ [Ev.stmt q] := by
  unfold stepStmt
  split_ifs with h1 h2
  · cases hs : st.sess <;> simp [hs]
  · rfl
  · cases hs : st.sess with
    | auto =>
      simp only [hs]
      cases hsem : d.sem q st.db with
      | ok pr => obtain ⟨db', rows⟩ := pr; rfl
      | error e => rfl
    | txn p ro =>
      simp only [hs]
      cases hsem : d.sem q p with
      | ok pr =>
        obtain ⟨db', rows⟩ := pr
        simp only
        split_ifs <;> rfl
      | error e => rfl
    | txnAborted => simp only [hs]

theorem executeQueryPooledBody_db {DB : Type} [DecidableEq DB] (d : Driver DB) (key : String)
    (a : Args) (db : DB) :
    (executeQueryPooledBody d key a db).2.db = db := by
  unfold executeQueryPooledBody
  dsimp only
  rw [stepStmt_begin d ⟨db, Session.auto, [Ev.acquire]⟩ rfl]
  dsimp only
  rw [stepStmt_rollback]
  dsimp only
  cases hl : jsLookup a key with
  | none => rfl
  | some v =>
    cases v with
    | str q => exact stepStmt_txn_db d q _ db true rfl
    | num n => rfl
    | bool b => rfl
    | null => rfl
    | arr xs => rfl
    | obj fs => rfl

theorem executeQueryPooledBody_events {DB : Type} [DecidableEq DB] (d : Driver DB) (key : String)
    (a : Args) (db : DB) :
    ∃ mid, (executeQueryPooledBody d key a db).2.events =
        [Ev.acquire, Ev.stmt beginReadOnlySQL] ++ mid ++ [Ev.stmt rollbackSQL] ∧
      ∀ x ∈ mid, ∃ s, x = Ev.stmt s := by
  unfold executeQueryPooledBody
  dsimp only
  rw [stepStmt_begin d ⟨db, Session.auto, [Ev.acquire]⟩ rfl]
  dsimp only
  rw [stepStmt_rollback]
  dsimp only
  cases hl : jsLookup a key with
  | none => exact ⟨[], rfl, by simp⟩
  | some v =>
    cases v with
    | str q =>
      refine ⟨[Ev.stmt q], ?_, ?_⟩
      · rw [stepStmt_events]
        rfl
      · intro x hx
        exact ⟨q, List.mem_singleton.mp hx⟩
    | num n => exact ⟨[], rfl, by simp⟩
    | bool b => exact ⟨[], rfl, by simp⟩
    | null => exact ⟨[], rfl, by simp⟩
    | arr xs => exact ⟨[], rfl, by simp⟩
    | obj fs => exact ⟨[], rfl, by simp⟩

theorem insertLoop_append {DB : Type} [DecidableEq DB] (d : Driver DB) (tn : String)
    (l1 l2 : List JVal) (st : St DB) :
    insertLoop d tn (l1 ++ l2) st =
      (match (insertLoop d tn l1 st).1 with
       | .ok _ => insertLoop d tn l2 (insertLoop d tn l1 st).2
       | .error e => (.error e, (insertLoop d tn l1 st).2)) := by
  induction l1 generalizing st with
  | nil => rfl
  | cons r rs ih =>
    have hstep : ∀ (L : List JVal) (st' : St DB), insertLoop d tn (r :: L) st' =
        (match (stepStmt d (buildInsert tn r) st').1 with
         | .ok _ => insertLoop d tn L (stepStmt d (buildInsert tn r) st').2
         | .error e => (.error e, (stepStmt d (buildInsert tn r) st').2)) :=
      fun L st' => rfl
    rw [List.cons_append, hstep (rs ++ l2) st, hstep rs st]
    cases hp : (stepStmt d (buildInsert tn r) st).1 with
    | ok u => exact ih _
    | error e => rfl

theorem insertLoop_ok_facts {DB : Type} [DecidableEq DB] (d : Driver DB) (tn : String)
    (rs : List JVal) (st : St DB) (hsess : st.sess = Session.auto)
    (h : (insertLoop d tn rs st).1 = .ok ()) :
    (insertLoop d tn rs st).2.events =
        st.events ++ rs.map (fun r => Ev.stmt (buildInsert tn r)) ∧
      (insertLoop d tn rs st).2.sess = Session.auto := by
  induction rs generalizing st with
  | nil => exact ⟨by simp [insertLoop], hsess⟩
  | cons r rs ih =>
    rw [show insertLoop d tn (r :: rs) st =
        (match (stepStmt d (buildInsert tn r) st).1 with
         | .ok _ => insertLoop d tn rs (stepStmt d (buildInsert tn r) st).2
         | .error e => (.error e, (stepStmt d (buildInsert tn r) st).2)) from rfl] at h ⊢
    rw [stepStmt_auto d _ st (buildInsert_ne_begin tn r) (buildInsert_ne_rollback tn r) hsess]
      at h ⊢
    cases hsem : d.sem (buildInsert tn r) st.db with
    | ok pr =>
      obtain ⟨db', rows⟩ := pr
      rw [hsem] at h
      dsimp only at h ⊢
      obtain ⟨he, hs⟩ := ih ⟨db', Session.auto, st.events ++ [Ev.stmt (buildInsert tn r)]⟩ rfl h
      refine ⟨?_, hs⟩
      rw [he]
      simp
    | error e =>
      rw [hsem] at h
      simp at h

theorem executeQueryPooled_db {DB : Type} [DecidableEq DB] (d : Driver DB) (key : String)
    (args? : Option Args) (db : DB) :
    (executeQueryPooled d key args? db).db = db := by
  cases args? with
  | none => rfl
  | some a =>
    unfold executeQueryPooled
    cases hacq : d.acquire with
    | error e => rfl
    | ok u => exact executeQueryPooledBody_db d key a db

theorem executeQueryPooled_isThrown {DB : Type} [DecidableEq DB] (d : Driver DB) (key : String)
    (args? : Option Args) (db : DB) :
    (executeQueryPooled d key args? db).isThrown = (args?.isNone || !exceptOk d.acquire) := by
  cases args? with
  | none => rfl
  | some a =>
    unfold executeQueryPooled
    cases hacq : d.acquire with
    | error e => rfl
    | ok u => rfl

theorem createTablePooled_isThrown {DB : Type} [DecidableEq DB] (d : Driver DB)
    (args? : Option Args) (db : DB) :
    (createTablePooled d args? db).isThrown = (args?.isNone || !exceptOk d.acquire) := by
  cases args? with
  | none => rfl
  | some a =>
    unfold createTablePooled
    cases hacq : d.acquire with
    | error e => rfl
    | ok u => rfl

theorem insertDataPooled_isThrown {DB : Type} [DecidableEq DB] (d : Driver DB)
    (args? : Option Args) (db : DB) :
    (insertDataPooled d args? db).isThrown = (args?.isNone || !exceptOk d.acquire) := by
  cases args? with
  | none => rfl
  | some a =>
    unfold insertDataPooled
    cases hacq : d.acquire with
    | error e => rfl
    | ok u => rfl

theorem testConnection_isThrown {DB : Type} (d : Driver DB) (db : DB) :
    (testConnection d db).isThrown = false := by
  unfold testConnection
  cases hc : d.connect with
  | error e => rfl
  | ok u => rfl

theorem strMk_data (s : String) : String.mk s.data = s := by
  cases s
  rfl

theorem splitCharsAux_append (sep : Char) (l rest : List Char) (hl : sep ∉ l)
    (hh : List Char) (tt : List (List Char)) (hr : splitCharsAux sep rest = hh :: tt) :
    splitCharsAux sep (l ++ rest) = (l ++ hh) :: tt := by
  induction l with
  | nil => simpa using hr
  | cons c cs ih =>
    have hc : ¬ (c = sep) := fun h => hl (h ▸ List.mem_cons_self c cs)
    rw [List.cons_append]
    unfold splitCharsAux
    rw [if_neg hc, ih (fun hm => hl (List.mem_cons_of_mem c hm))]
    rfl

theorem jsSplit_uri (t : String) (h : '/' ∉ t.data) :
    jsSplit '/' ("postgres://" ++ t ++ "/schema") = ["postgres:", "", t, "schema"] := by
  have h2 : splitCharsAux '/' ("/schema".data) = [] :: ["schema".data] := by decide
  have h3 : splitCharsAux '/' (t.data ++ "/schema".data) = (t.data ++ []) :: ["schema".data] :=
    splitCharsAux_append '/' t.data "/schema".data h [] ["schema".data] h2
  rw [List.append_nil] at h3
  have h4 : splitCharsAux '/' ('/' :: (t.data ++ "/schema".data)) =
      [] :: t.data :: ["schema".data] := by
    unfold splitCharsAux
    rw [if_pos rfl, h3]
  have h5 : splitCharsAux '/' ('/' :: '/' :: (t.data ++ "/schema".data)) =
      [] :: [] :: t.data :: ["schema".data] := by
    unfold splitCharsAux
    rw [if_pos rfl, h4]
  have h6 : splitCharsAux '/' ("postgres:".data ++ ('/' :: '/' :: (t.data ++ "/schema".data))) =
      ("postgres:".data ++ []) :: [] :: t.data :: ["schema".data] :=
    splitCharsAux_append '/' "postgres:".data _ (by decide) [] _ h5
  have hdata : ("postgres://" ++ t ++ "/schema").data =
      "postgres:".data ++ ('/' :: '/' :: (t.data ++ "/schema".data)) := by
    rw [String.data_append, String.data_append]
    have hp : "postgres://".data = "postgres:".data ++ ['/', '/'] := by decide
    rw [hp]
    simp [List.append_assoc]
  have hnil : (⟨[]⟩ : String) = "" := by decide
  unfold jsSplit
  rw [hdata, h6, List.append_nil]
  show [String.mk "postgres:".data, String.mk [], String.mk t.data, String.mk "schema".data] =
    ["postgres:", "", t, "schema"]
  rw [strMk_data, strMk_data, strMk_data, hnil]

theorem respSingleText_ok (t : String) : respSingleText (okTextResp t) = true := rfl

theorem respSingleText_err (t : String) : respSingleText (errTextResp t) = true := rfl

theorem executeQueryPooledBody_single {DB : Type} [DecidableEq DB] (d : Driver DB)
    (key : String) (a : Args) (db : DB) :
    respSingleText (executeQueryPooledBody d key a db).1 = true := by
  unfold executeQueryPooledBody
  dsimp only
  rw [stepStmt_begin d ⟨db, Session.auto, [Ev.acquire]⟩ rfl]
  dsimp only
  cases hl : jsLookup a key with
  | none => rfl
  | some v =>
    cases v with
    | str q =>
      dsimp only
      cases hq : (stepStmt d q ⟨db, Session.txn db true,
          [Ev.acquire] ++ [Ev.stmt beginReadOnlySQL]⟩).1 with
      | ok rows => exact respSingleText_ok _
      | error e => exact respSingleText_err _
    | num n => rfl
    | bool b => rfl
    | null => rfl
    | arr xs => rfl
    | obj fs => rfl

theorem createTablePooledBody_single {DB : Type} [DecidableEq DB] (d : Driver DB)
    (a : Args) (db : DB) :
    respSingleText (createTablePooledBody d a db).1 = true := by
  unfold createTablePooledBody
  dsimp only
  cases hl : jsLookup a "columns" with
  | none => rfl
  | some v =>
    cases v with
    | str s => rfl
    | num n => rfl
    | bool b => rfl
    | null => rfl
    | arr cols =>
      dsimp only
      cases hq : (stepStmt d (buildCreateTable (jsTemplate (jsLookup a "tableName")) cols)
          ⟨db, Session.auto, [Ev.acquire]⟩).1 with
      | ok rows => exact respSingleText_ok _
      | error e => exact respSingleText_err _
    | obj fs => rfl

theorem insertDataPooledBody_single {DB : Type} [DecidableEq DB] (d : Driver DB)
    (a : Args) (db : DB) :
    respSingleText (insertDataPooledBody d a db).1 = true := by
  unfold insertDataPooledBody
  dsimp only
  cases hl : jsLookup a "data" with
  | none => rfl
  | some v =>
    cases v with
    | str s => rfl
    | num n => rfl
    | bool b => rfl
    | null => rfl
    | arr records =>
      dsimp only
      cases hq : (insertLoop d (jsTemplate (jsLookup a "tableName")) records
          ⟨db, Session.auto, [Ev.acquire]⟩).1 with
      | ok u => exact respSingleText_ok _
      | error e => exact respSingleText_err _
    | obj fs => rfl

theorem executeQueryPerCall_single {DB : Type} [DecidableEq DB] (d : Driver DB)
    (args? : Option Args) (db : DB) :
    singleTextOk (executeQueryPerCall d args? db) = true := by
  cases args? with
  | none => rfl
  | some a =>
    unfold executeQueryPerCall
    dsimp only
    cases hc : d.connect with
    | error e => rfl
    | ok u =>
      dsimp only
      cases hl : jsLookup a "query" with
      | none => rfl
      | some v =>
        cases v with
        | str q =>
          dsimp only
          cases hq : (stepStmt d q ⟨db, Session.auto, [Ev.connect]⟩).1 with
          | ok rows => rfl
          | error e => rfl
        | num n => rfl
        | bool b => rfl
        | null => rfl
        | arr xs => rfl
        | obj fs => rfl

theorem createTablePerCall_single {DB : Type} [DecidableEq DB] (d : Driver DB)
    (args? : Option Args) (db : DB) :
    singleTextOk (createTablePerCall d args? db) = true := by
  cases args? with
  | none => rfl
  | some a =>
    unfold createTablePerCall
    dsimp only
    cases hc : d.connect with
    | error e => rfl
    | ok u =>
      dsimp only
      cases hl : jsLookup a "columns" with
      | none => rfl
      | some v =>
        cases v with
        | str s => rfl
        | num n => rfl
        | bool b => rfl
        | null => rfl
        | arr cols =>
          dsimp only
          cases hq : (stepStmt d (buildCreateTable (jsTemplate (jsLookup a "tableName")) cols)
              ⟨db, Session.auto, [Ev.connect]⟩).1 with
          | ok rows => rfl
          | error e => rfl
        | obj fs => rfl

theorem insertDataPerCall_single {DB : Type} [DecidableEq DB] (d : Driver DB)
    (args? : Option Args) (db : DB) :
    singleTextOk (insertDataPerCall d args? db) = true := by
  cases args? with
  | none => rfl
  | some a =>
    unfold insertDataPerCall
    dsimp only
    cases hc : d.connect with
    | error e => rfl
    | ok u =>
      dsimp only
      cases hl : jsLookup a "data" with
      | none => rfl
      | some v =>
        cases v with
        | str s => rfl
        | num n => rfl
        | bool b => rfl
        | null => rfl
        | arr records =>
          dsimp only
          cases hq : (insertLoop d (jsTemplate (jsLookup a "tableName")) records
              ⟨db, Session.auto, [Ev.connect]⟩).1 with
          | ok u2 => rfl
          | error e => rfl
        | obj fs => rfl

/-- C10: Every ToolResponse produced by any of the executors — `test_connection`,
`execute_query`/`query` (pooled and per-call), `create_table` (pooled and
per-call) and `insert_data` (pooled and per-call) — on success and on failure
alike, has a content sequence containing exactly one element, and that
element's `type` field is the string `text`. -/
theorem tool_response_single_text_invariant {DB : Type} [DecidableEq DB] (d : Driver DB)
    (key : String) (args? : Option Args) (db : DB) :
    singleTextOk (testConnection d db) = true ∧
    singleTextOk (executeQueryPooled d key args? db) = true ∧
    singleTextOk (createTablePooled d args? db) = true ∧
    singleTextOk (insertDataPooled d args? db) = true ∧
    singleTextOk (executeQueryPerCall d args? db) = true ∧
    singleTextOk (createTablePerCall d args? db) = true ∧
    singleTextOk (insertDataPerCall d args? db) = true := by
  refine ⟨?_, ?_, ?_, ?_, executeQueryPerCall_single d args? db,
    createTablePerCall_single d args? db, insertDataPerCall_single d args? db⟩
  · unfold testConnection
    cases hc : d.connect with
    | error e => rfl
    | ok u => rfl
  · cases args? with
    | none => rfl
    | some a =>
      unfold executeQueryPooled
      cases hacq : d.acquire with
      | error e => rfl
      | ok u =>
        show respSingleText (executeQueryPooledBody d key a db).1 = true
        exact executeQueryPooledBody_single d key a db
  · cases args? with
    | none => rfl
    | some a =>
      unfold createTablePooled
      cases hacq : d.acquire with
      | error e => rfl
      | ok u =>
        show respSingleText (createTablePooledBody d a db).1 = true
        exact createTablePooledBody_single d a db
  · cases args? with
    | none => rfl
    | some a =>
      unfold insertDataPooled
      cases hacq : d.acquire with
      | error e => rfl
      | ok u =>
        show respSingleText (insertDataPooledBody d a db).1 = true
        exact insertDataPooledBody_single d a db

theorem countEv_append (e : Ev) (l1 l2 : List Ev) :
    countEv e (l1 ++ l2) = countEv e l1 + countEv e l2 := by
  induction l1 with
  | nil => simp [countEv]
  | cons x xs ih => simp [countEv, ih, Nat.add_assoc]

theorem countEv_stmts_zero (e : Ev) (l : List Ev) (he : ∀ s, e ≠ Ev.stmt s)
    (h : ∀ x ∈ l, ∃ s, x = Ev.stmt s) : countEv e l = 0 := by
  induction l with
  | nil => rfl
  | cons x xs ih =>
    obtain ⟨s, hs⟩ := h x (List.mem_cons_self x xs)
    have hne : ¬ (x = e) := fun hxe => he s (by rw [← hxe, hs])
    simp [countEv, hne]
    exact ih (fun y hy => h y (List.mem_cons_of_mem x hy))

theorem insertLoop_events_stmts {DB : Type} [DecidableEq DB] (d : Driver DB) (tn : String)
    (rs : List JVal) (st : St DB) :
    ∃ mid, (insertLoop d tn rs st).2.events = st.events ++ mid ∧
      ∀ x ∈ mid, ∃ s, x = Ev.stmt s := by
  induction rs generalizing st with
  | nil => exact ⟨[], by simp [insertLoop], by simp⟩
  | cons r rs ih =>
    have hstep : insertLoop d tn (r :: rs) st =
        (match (stepStmt d (buildInsert tn r) st).1 with
         | .ok _ => insertLoop d tn rs (stepStmt d (buildInsert tn r) st).2
         | .error e => (.error e, (stepStmt d (buildInsert tn r) st).2)) := rfl
    rw [hstep]
    cases hp : (stepStmt d (buildInsert tn r) st).1 with
    | ok u =>
      obtain ⟨mid, hm, hs⟩ := ih (stepStmt d (buildInsert tn r) st).2
      refine ⟨[Ev.stmt (buildInsert tn r)] ++ mid, ?_, ?_⟩
      · rw [hm, stepStmt_events]
        simp
      · intro x hx
        rcases List.mem_append.mp hx with h1 | h2
        · exact ⟨buildInsert tn r, List.mem_singleton.mp h1⟩
        · exact hs x h2
    | error e =>
      refine ⟨[Ev.stmt (buildInsert tn r)], ?_, ?_⟩
      · rw [stepStmt_events]
      · intro x hx
        exact ⟨buildInsert tn r, List.mem_singleton.mp hx⟩

theorem executeQueryPooledBody_events_stmts {DB : Type} [DecidableEq DB] (d : Driver DB)
    (key : String) (a : Args) (db : DB) :
    ∃ mid, (executeQueryPooledBody d key a db).2.events = Ev.acquire :: mid ∧
      ∀ x ∈ mid, ∃ s, x = Ev.stmt s := by
  obtain ⟨mid, hm, hstmts⟩ := executeQueryPooledBody_events d key a db
  refine ⟨[Ev.stmt beginReadOnlySQL] ++ mid ++ [Ev.stmt rollbackSQL], ?_, ?_⟩
  · rw [hm]; simp
  · intro x hx
    rcases List.mem_append.mp hx with h1 | h2
    · rcases List.mem_append.mp h1 with h3 | h4
      · exact ⟨beginReadOnlySQL, List.mem_singleton.mp h3⟩
      · exact hstmts x h4
    · exact ⟨rollbackSQL, List.mem_singleton.mp h2⟩

theorem createTablePooledBody_events_stmts {DB : Type} [DecidableEq DB] (d : Driver DB)
    (a : Args) (db : DB) :
    ∃ mid, (createTablePooledBody d a db).2.events = Ev.acquire :: mid ∧
      ∀ x ∈ mid, ∃ s, x = Ev.stmt s := by
  unfold createTablePooledBody
  dsimp only
  cases hl : jsLookup a "columns" with
  | none => exact ⟨[], rfl, by simp⟩
  | some v =>
    cases v with
    | str s => exact ⟨[], rfl, by simp⟩
    | num n => exact ⟨[], rfl, by simp⟩
    | bool b => exact ⟨[], rfl, by simp⟩
    | null => exact ⟨[], rfl, by simp⟩
    | arr cols =>
      dsimp only
      refine ⟨[Ev.stmt (buildCreateTable (jsTemplate (jsLookup a "tableName")) cols)], ?_, ?_⟩
      · rw [stepStmt_events]
        rfl
      · intro x hx
        exact ⟨_, List.mem_singleton.mp hx⟩
    | obj fs => exact ⟨[], rfl, by simp⟩

theorem insertDataPooledBody_events_stmts {DB : Type} [DecidableEq DB] (d : Driver DB)
    (a : Args) (db : DB) :
    ∃ mid, (insertDataPooledBody d a db).2.events = Ev.acquire :: mid ∧
      ∀ x ∈ mid, ∃ s, x = Ev.stmt s := by
  unfold insertDataPooledBody
  dsimp only
  cases hl : jsLookup a "data" with
  | none => exact ⟨[], rfl, by simp⟩
  | some v =>
    cases v with
    | str s => exact ⟨[], rfl, by simp⟩
    | num n => exact ⟨[], rfl, by simp⟩
    | bool b => exact ⟨[], rfl, by simp⟩
    | null => exact ⟨[], rfl, by simp⟩
    | arr records =>
      dsimp only
      obtain ⟨mid, hm, hs⟩ := insertLoop_events_stmts d (jsTemplate (jsLookup a "tableName"))
        records ⟨db, Session.auto, [Ev.acquire]⟩
      exact ⟨mid, by rw [hm]; rfl, hs⟩
    | obj fs => exact ⟨[], rfl, by simp⟩

theorem ev_acquire_ne_stmt : ∀ s, Ev.acquire ≠ Ev.stmt s := fun _ h => Ev.noConfusion h

theorem ev_release_ne_stmt : ∀ s, Ev.release ≠ Ev.stmt s := fun _ h => Ev.noConfusion h

theorem ev_connect_ne_stmt : ∀ s, Ev.connect ≠ Ev.stmt s := fun _ h => Ev.noConfusion h

theorem ev_close_ne_stmt : ∀ s, Ev.closeConn ≠ Ev.stmt s := fun _ h => Ev.noConfusion h

theorem executeQueryPooled_balanced {DB : Type} [DecidableEq DB] (d : Driver DB) (key : String)
    (args? : Option Args) (db : DB) :
    countEv Ev.acquire (executeQueryPooled d key args? db).events =
      countEv Ev.release (executeQueryPooled d key args? db).events := by
  cases args? with
  | none => rfl
  | some a =>
    unfold executeQueryPooled
    cases hacq : d.acquire with
    | error e => rfl
    | ok u =>
      dsimp only
      obtain ⟨mid, hm, hs⟩ := executeQueryPooledBody_events_stmts d key a db
      rw [hm]
      have hz1 := countEv_stmts_zero Ev.acquire mid ev_acquire_ne_stmt hs
      have hz2 := countEv_stmts_zero Ev.release mid ev_release_ne_stmt hs
      simp [countEv, countEv_append, hz1, hz2]

theorem createTablePooled_balanced {DB : Type} [DecidableEq DB] (d : Driver DB)
    (args? : Option Args) (db : DB) :
    countEv Ev.acquire (createTablePooled d args? db).events =
      countEv Ev.release (createTablePooled d args? db).events := by
  cases args? with
  | none => rfl
  | some a =>
    unfold createTablePooled
    cases hacq : d.acquire with
    | error e => rfl
    | ok u =>
      dsimp only
      obtain ⟨mid, hm, hs⟩ := createTablePooledBody_events_stmts d a db
      rw [hm]
      have hz1 := countEv_stmts_zero Ev.acquire mid ev_acquire_ne_stmt hs
      have hz2 := countEv_stmts_zero Ev.release mid ev_release_ne_stmt hs
      simp [countEv, countEv_append, hz1, hz2]

theorem insertDataPooled_balanced {DB : Type} [DecidableEq DB] (d : Driver DB)
    (args? : Option Args) (db : DB) :
    countEv Ev.acquire (insertDataPooled d args? db).events =
      countEv Ev.release (insertDataPooled d args? db).events := by
  cases args? with
  | none => rfl
  | some a =>
    unfold insertDataPooled
    cases hacq : d.acquire with
    | error e => rfl
    | ok u =>
      dsimp only
      obtain ⟨mid, hm, hs⟩ := insertDataPooledBody_events_stmts d a db
      rw [hm]
      have hz1 := countEv_stmts_zero Ev.acquire mid ev_acquire_ne_stmt hs
      have hz2 := countEv_stmts_zero Ev.release mid ev_release_ne_stmt hs
      simp [countEv, countEv_append, hz1, hz2]

theorem listResources_balanced {DB : Type} [DecidableEq DB] (d : Driver DB) (db : DB) :
    countEv Ev.acquire (listResources d db).events =
      countEv Ev.release (listResources d db).events := by
  unfold listResources
  cases hacq : d.acquire with
  | error e => rfl
  | ok u =>
    dsimp only
    cases hp : (stepStmt d catalogTablesSQL ⟨db, Session.auto, [Ev.acquire]⟩).1 with
    | ok rows =>
      dsimp only
      rw [stepStmt_events]
      rfl
    | error e =>
      dsimp only
      rw [stepStmt_events]
      rfl

theorem testConnection_balanced {DB : Type} (d : Driver DB) (db : DB) :
    countEv Ev.connect (testConnection d db).events =
      countEv Ev.closeConn (testConnection d db).events := by
  unfold testConnection
  cases hc : d.connect with
  | error e => rfl
  | ok u => rfl

theorem executeQueryPerCall_counts {DB : Type} [DecidableEq DB] (d : Driver DB)
    (args? : Option Args) (db : DB) :
    countEv Ev.connect (executeQueryPerCall d args? db).events =
        (if args?.isSome && exceptOk d.connect then 1 else 0) ∧
      countEv Ev.closeConn (executeQueryPerCall d args? db).events =
        (if (executeQueryPerCall d args? db).isOkResp then 1 else 0) := by
  cases args? with
  | none => exact ⟨rfl, rfl⟩
  | some a =>
    unfold executeQueryPerCall
    dsimp only
    cases hc : d.connect with
    | error e => exact ⟨rfl, rfl⟩
    | ok u =>
      dsimp only
      cases hl : jsLookup a "query" with
      | none => exact ⟨rfl, rfl⟩
      | some v =>
        cases v with
        | str q =>
          dsimp only
          cases hq : (stepStmt d q ⟨db, Session.auto, [Ev.connect]⟩).1 with
          | ok rows =>
            dsimp only
            rw [stepStmt_events]
            exact ⟨rfl, rfl⟩
          | error e =>
            dsimp only
            rw [stepStmt_events]
            exact ⟨rfl, rfl⟩
        | num n => exact ⟨rfl, rfl⟩
        | bool b => exact ⟨rfl, rfl⟩
        | null => exact ⟨rfl, rfl⟩
        | arr xs => exact ⟨rfl, rfl⟩
        | obj fs => exact ⟨rfl, rfl⟩

theorem createTablePerCall_counts {DB : Type} [DecidableEq DB] (d : Driver DB)
    (args? : Option Args) (db : DB) :
    countEv Ev.connect (createTablePerCall d args? db).events =
        (if args?.isSome && exceptOk d.connect then 1 else 0) ∧
      countEv Ev.closeConn (createTablePerCall d args? db).events =
        (if (createTablePerCall d args? db).isOkResp then 1 else 0) := by
  cases args? with
  | none => exact ⟨rfl, rfl⟩
  | some a =>
    unfold createTablePerCall
    dsimp only
    cases hc : d.connect with
    | error e => exact ⟨rfl, rfl⟩
    | ok u =>
      dsimp only
      cases hl : jsLookup a "columns" with
      | none => exact ⟨rfl, rfl⟩
      | some v =>
        cases v with
        | str s => exact ⟨rfl, rfl⟩
        | num n => exact ⟨rfl, rfl⟩
        | bool b => exact ⟨rfl, rfl⟩
        | null => exact ⟨rfl, rfl⟩
        | arr cols =>
          dsimp only
          cases hq : (stepStmt d (buildCreateTable (jsTemplate (jsLookup a "tableName")) cols)
              ⟨db, Session.auto, [Ev.connect]⟩).1 with
          | ok rows =>
            dsimp only
            rw [stepStmt_events]
            exact ⟨rfl, rfl⟩
          | error e =>
            dsimp only
            rw [stepStmt_events]
            exact ⟨rfl, rfl⟩
        | obj fs => exact ⟨rfl, rfl⟩

theorem insertDataPerCall_counts {DB : Type} [DecidableEq DB] (d : Driver DB)
    (args? : Option Args) (db : DB) :
    countEv Ev.connect (insertDataPerCall d args? db).events =
        (if args?.isSome && exceptOk d.connect then 1 else 0) ∧
      countEv Ev.closeConn (insertDataPerCall d args? db).events =
        (if (insertDataPerCall d args? db).isOkResp then 1 else 0) := by
  cases args? with
  | none => exact ⟨rfl, rfl⟩
  | some a =>
    unfold insertDataPerCall
    dsimp only
    cases hc : d.connect with
    | error e => exact ⟨rfl, rfl⟩
    | ok u =>
      dsimp only
      cases hl : jsLookup a "data" with
      | none => exact ⟨rfl, rfl⟩
      | some v =>
        cases v with
        | str s => exact ⟨rfl, rfl⟩
        | num n => exact ⟨rfl, rfl⟩
        | bool b => exact ⟨rfl, rfl⟩
        | null => exact ⟨rfl, rfl⟩
        | arr records =>
          dsimp only
          obtain ⟨mid, hm, hs⟩ := insertLoop_events_stmts d
            (jsTemplate (jsLookup a "tableName")) records ⟨db, Session.auto, [Ev.connect]⟩
          have hzc := countEv_stmts_zero Ev.connect mid ev_connect_ne_stmt hs
          have hzk := countEv_stmts_zero Ev.closeConn mid ev_close_ne_stmt hs
          cases hq : (insertLoop d (jsTemplate (jsLookup a "tableName")) records
              ⟨db, Session.auto, [Ev.connect]⟩).1 with
          | ok u2 =>
            dsimp only
            rw [hm]
            constructor
            · simp [countEv, countEv_append, hzc, exceptOk]
            · simp [countEv, countEv_append, hzk, Outcome.isOkResp, okTextResp]
          | error e =>
            dsimp only
            rw [hm]
            constructor
            · simp [countEv, countEv_append, hzc, exceptOk]
            · simp [countEv, countEv_append, hzk, Outcome.isOkResp, errTextResp]
        | obj fs => exact ⟨rfl, rfl⟩

/-- C4 (amended): the pooled executors and the catalog listing release in a
`finally`, so their traces are balanced — acquisitions equal releases on every
path — and `test_connection` closes what it connects.  The per-call executors,
however, call `client.end()` only on the success path: they open a connection
whenever `connect` succeeds, but close exactly when the operation returned a
non-error response, so the error path after a successful connect leaves the
connection open. -/
theorem connection_release_discipline {DB : Type} [DecidableEq DB] (d : Driver DB)
    (key : String) (args? : Option Args) (db : DB) :
    (countEv Ev.acquire (executeQueryPooled d key args? db).events =
        countEv Ev.release (executeQueryPooled d key args? db).events) ∧
    (countEv Ev.acquire (createTablePooled d args? db).events =
        countEv Ev.release (createTablePooled d args? db).events) ∧
    (countEv Ev.acquire (insertDataPooled d args? db).events =
        countEv Ev.release (insertDataPooled d args? db).events) ∧
    (countEv Ev.acquire (listResources d db).events =
        countEv Ev.release (listResources d db).events) ∧
    (countEv Ev.connect (testConnection d db).events =
        countEv Ev.closeConn (testConnection d db).events) ∧
    (countEv Ev.connect (executeQueryPerCall d args? db).events =
        (if args?.isSome && exceptOk d.connect then 1 else 0)) ∧
    (countEv Ev.closeConn (executeQueryPerCall d args? db).events =
        (if (executeQueryPerCall d args? db).isOkResp then 1 else 0)) ∧
    (countEv Ev.closeConn (createTablePerCall d args? db).events =
        (if (createTablePerCall d args? db).isOkResp then 1 else 0)) ∧
    (countEv Ev.closeConn (insertDataPerCall d args? db).events =
        (if (insertDataPerCall d args? db).isOkResp then 1 else 0)) :=
  ⟨executeQueryPooled_balanced d key args? db,
   createTablePooled_balanced d args? db,
   insertDataPooled_balanced d args? db,
   listResources_balanced d db,
   testConnection_balanced d db,
   (executeQueryPerCall_counts d args? db).1,
   (executeQueryPerCall_counts d args? db).2,
   (createTablePerCall_counts d args? db).2,
   (insertDataPerCall_counts d args? db).2⟩

/-- C4 counterexample: in the per-call variant a failing query leaves the
connection open — the trace records the successful `connect` and the failing
statement but no `client.end()`, so the connection is not closed exactly once
on the error path. -/
theorem per_call_error_path_leaks_connection :
    countEv Ev.connect (executeQueryPerCall failSemDriver
        (some [("query", JVal.str "SELECT 1")]) 0).events = 1 ∧
    countEv Ev.closeConn (executeQueryPerCall failSemDriver
        (some [("query", JVal.str "SELECT 1")]) 0).events = 0 ∧
    (executeQueryPerCall failSemDriver
        (some [("query", JVal.str "SELECT 1")]) 0).events =
      [Ev.connect, Ev.stmt "SELECT 1"] := by
  refine ⟨?_, ?_, ?_⟩ <;> decide

/-- C1 (amended): in the pooled variants (`part_000` `execute_query`, build
`query`), the executor brackets the caller's statement between
`BEGIN TRANSACTION READ ONLY` and a `finally` `ROLLBACK` before releasing, and
the database state after the call is always unchanged — for every driver,
every argument object and every statement, including failing ones.  In the
per-call variants (`part_001` first half, `part_002`), `execute_query` runs
the statement directly in autocommit mode with no transaction: the trace is
just connect-statement(-close), and a successful write's new state persists. -/
theorem execute_query_read_only_discipline {DB : Type} [DecidableEq DB] (d : Driver DB)
    (key : String) (args? : Option Args) (db : DB) (a : Args) (q : String)
    (db' : DB) (rows : Rows) :
    ((executeQueryPooled d key args? db).db = db) ∧
    (d.acquire = .ok () →
      ∃ mid, (executeQueryPooled d key (some a) db).events =
        [Ev.acquire, Ev.stmt beginReadOnlySQL] ++ mid ++ [Ev.stmt rollbackSQL, Ev.release]) ∧
    (jsLookup a "query" = some (.str q) → d.connect = .ok () →
      q ≠ beginReadOnlySQL → q ≠ rollbackSQL → d.sem q db = .ok (db', rows) →
      (executeQueryPerCall d (some a) db).db = db' ∧
      (executeQueryPerCall d (some a) db).events = [Ev.connect, Ev.stmt q, Ev.closeConn]) := by
  refine ⟨executeQueryPooled_db d key args? db, ?_, ?_⟩
  · intro ha
    unfold executeQueryPooled
    rw [ha]
    dsimp only
    obtain ⟨mid, hm, _⟩ := executeQueryPooledBody_events d key a db
    refine ⟨mid, ?_⟩
    rw [hm]
    simp
  · intro hl hc hq1 hq2 hsem
    unfold executeQueryPerCall
    rw [hc]
    dsimp only
    rw [hl]
    dsimp only
    rw [stepStmt_auto d q ⟨db, Session.auto, [Ev.connect]⟩ hq1 hq2 rfl]
    rw [hsem]
    dsimp only
    exact ⟨rfl, rfl⟩

/-- C1 counterexample: submitted through the per-call `execute_query`
(`part_002` lines 127-152, cited by the claim), a successful write statement
changes the database state — no read-only transaction and no rollback occur,
so the state after the call is 1, not the initial 0. -/
theorem execute_query_per_call_write_persists :
    (executeQueryPerCall dropDriver (some [("query", JVal.str "DROP TABLE users")]) 0).db = 1 ∧
    (executeQueryPerCall dropDriver (some [("query", JVal.str "DROP TABLE users")]) 0).isOkResp
      = true ∧
    (executeQueryPerCall dropDriver (some [("query", JVal.str "DROP TABLE users")]) 0).events =
      [Ev.connect, Ev.stmt "DROP TABLE users", Ev.closeConn] ∧
    (1 : Nat) ≠ 0 := by
  refine ⟨?_, ?_, ?_, ?_⟩ <;> decide

/-- C1 witness: the amended theorem instantiated on a concrete driver where
every statement succeeds without effect — the pooled trace shows the
begin/rollback bracket and the state is framed, the per-call trace shows the
bare statement. -/
theorem execute_query_read_only_discipline_witness :
    ((executeQueryPooled okDriver "query" (some [("query", JVal.str "DELETE FROM t")]) 7).db
      = 7) ∧
    (∃ mid, (executeQueryPooled okDriver "query"
        (some [("query", JVal.str "DELETE FROM t")]) 7).events =
      [Ev.acquire, Ev.stmt beginReadOnlySQL] ++ mid ++ [Ev.stmt rollbackSQL, Ev.release]) ∧
    ((executeQueryPerCall okDriver (some [("query", JVal.str "DELETE FROM t")]) 7).db = 7 ∧
      (executeQueryPerCall okDriver (some [("query", JVal.str "DELETE FROM t")]) 7).events =
        [Ev.connect, Ev.stmt "DELETE FROM t", Ev.closeConn]) := by
  have h := execute_query_read_only_discipline okDriver "query"
    (some [("query", JVal.str "DELETE FROM t")]) 7 [("query", JVal.str "DELETE FROM t")]
    "DELETE FROM t" 7 []
  exact ⟨h.1, h.2.1 rfl, h.2.2 rfl rfl (by decide) (by decide) rfl⟩

theorem dispatch000_isThrown {DB : Type} [DecidableEq DB] (d : Driver DB) (name : String)
    (args? : Option Args) (db : DB) :
    (dispatch000 d name args? db).isThrown = throwCond000 name args? d.acquire := by
  unfold dispatch000 throwCond000
  by_cases h1 : name = "test_connection"
  · rw [if_pos h1, if_pos h1]
    exact testConnection_isThrown d db
  · rw [if_neg h1, if_neg h1]
    by_cases h2 : name = "execute_query"
    · rw [if_pos h2, if_pos (Or.inl h2)]
      exact executeQueryPooled_isThrown d "query" args? db
    · rw [if_neg h2]
      by_cases h3 : name = "create_table"
      · rw [if_pos h3, if_pos (Or.inr (Or.inl h3))]
        exact createTablePooled_isThrown d args? db
      · rw [if_neg h3]
        by_cases h4 : name = "insert_data"
        · rw [if_pos h4, if_pos (Or.inr (Or.inr h4))]
          exact insertDataPooled_isThrown d args? db
        · rw [if_neg h4, if_neg (by tauto : ¬ (name = "execute_query" ∨
            name = "create_table" ∨ name = "insert_data"))]
          rfl

theorem dispatchQuery_isThrown {DB : Type} [DecidableEq DB] (d : Driver DB) (name : String)
    (args? : Option Args) (db : DB) :
    (dispatchQuery d name args? db).isThrown = throwCondQuery name args? d.acquire := by
  unfold dispatchQuery throwCondQuery
  by_cases h1 : name = "test_connection"
  · have hq : ¬ (name = "query") := by rw [h1]; decide
    rw [if_neg hq, if_pos h1, if_pos h1]
    exact testConnection_isThrown d db
  · by_cases h2 : name = "query"
    · rw [if_pos h2, if_neg h1, if_pos (Or.inl h2)]
      exact executeQueryPooled_isThrown d "sql" args? db
    · rw [if_neg h2, if_neg h1, if_neg h1]
      by_cases h3 : name = "create_table"
      · rw [if_pos h3, if_pos (Or.inr h3)]
        exact createTablePooled_isThrown d args? db
      · rw [if_neg h3, if_neg (by tauto : ¬ (name = "query" ∨ name = "create_table"))]
        rfl

/-- C2 (amended): the `part_000` dispatcher throws exactly on `throwCond000`:
unrecognized names throw `McpError(MethodNotFound)` whose message contains the
offending name, `test_connection` never throws, but the three argument-taking
tools also throw when the `arguments` object is absent or pool acquisition
fails, because destructuring and `pool.connect()` happen before the try block.
The `query`-variant dispatcher behaves likewise except that its unknown-name
exception is a plain `Error` (not an `McpError`), still naming the tool. -/
theorem call_tool_throw_characterization {DB : Type} [DecidableEq DB] (d : Driver DB)
    (name : String) (args? : Option Args) (db : DB) :
    ((dispatch000 d name args? db).isThrown = throwCond000 name args? d.acquire) ∧
    (name ∉ tools000 →
      (dispatch000 d name args? db).result =
          .error (.mcpError .methodNotFound ("未知工具: " ++ name)) ∧
        ∃ p s, ("未知工具: " ++ name) = p ++ name ++ s) ∧
    ((dispatchQuery d name args? db).isThrown = throwCondQuery name args? d.acquire) ∧
    (name ∉ toolsQuery →
      (dispatchQuery d name args? db).result = .error (.jsError ("未知工具: " ++ name))) := by
  refine ⟨dispatch000_isThrown d name args? db, ?_, dispatchQuery_isThrown d name args? db, ?_⟩
  · intro h
    simp only [tools000, List.mem_cons, List.mem_singleton] at h
    push_neg at h
    obtain ⟨h1, h2, h3, h4⟩ := h
    unfold dispatch000
    rw [if_neg h1, if_neg h2, if_neg h3, if_neg (by simpa using h4)]
    exact ⟨rfl, "未知工具: ", "", by simp⟩
  · intro h
    simp only [toolsQuery, List.mem_cons, List.mem_singleton] at h
    push_neg at h
    obtain ⟨h1, h2, h3⟩ := h
    unfold dispatchQuery
    rw [if_neg h1, if_neg h2, if_neg (by simpa using h3)]

/-- C2 witness: the characterization applied at the unknown tool name
`frobnicate` with a present but empty `arguments` object. -/
theorem call_tool_throw_characterization_witness :
    ((dispatch000 okDriver "frobnicate" (some []) (0 : Nat)).isThrown =
        throwCond000 "frobnicate" (some []) okDriver.acquire) ∧
    ((dispatch000 okDriver "frobnicate" (some []) (0 : Nat)).result =
        .error (.mcpError .methodNotFound ("未知工具: " ++ "frobnicate")) ∧
      ∃ p s, ("未知工具: " ++ "frobnicate") = p ++ "frobnicate" ++ s) ∧
    ((dispatchQuery okDriver "frobnicate" (some []) (0 : Nat)).isThrown =
        throwCondQuery "frobnicate" (some []) okDriver.acquire) ∧
    ((dispatchQuery okDriver "frobnicate" (some []) (0 : Nat)).result =
        .error (.jsError ("未知工具: " ++ "frobnicate"))) := by
  have h := call_tool_throw_characterization okDriver "frobnicate" (some []) (0 : Nat)
  exact ⟨h.1, h.2.1 (by decide), h.2.2.1, h.2.2.2 (by decide)⟩

/-- C2 counterexample: the claim fails in two ways on the cited code.  First,
the `query`-variant dispatcher throws a plain `Error` for the unknown name
`insert_data`, not a `MethodNotFound` protocol fault.  Second, the recognized
tool `execute_query` throws across the adapter boundary when pool acquisition
fails, because `pool.connect()` is awaited outside the try block. -/
theorem call_tool_unknown_plain_error_counterexample :
    ((dispatchQuery okDriver "insert_data" (some []) (0 : Nat)).result =
        .error (.jsError ("未知工具: " ++ "insert_data"))) ∧
    (Thrown.isMethodNotFound (.jsError ("未知工具: " ++ "insert_data")) = false) ∧
    ((dispatch000 noAcquireDriver "execute_query"
        (some [("query", JVal.str "SELECT 1")]) (0 : Nat)).isThrown = true) ∧
    ("execute_query" ∈ tools000) := by
  refine ⟨rfl, rfl, rfl, by decide⟩

/-- C3 (amended): the dispatcher performs no required-field validation at all —
arguments are passed straight to the executor.  A call to `execute_query`
whose arguments omit the required `query` field is not rejected up front:
the connection is acquired and `BEGIN TRANSACTION READ ONLY` is issued first,
then the driver rejects the undefined query text inside the try, and the
caught failure comes back as an ordinary error-flagged ToolResponse with the
`查询执行失败` prefix — no `InvalidArgument` condition exists in the code. -/
theorem missing_query_flows_to_driver {DB : Type} [DecidableEq DB] (d : Driver DB)
    (a : Args) (db : DB)
    (hl : jsLookup a "query" = none) (ha : d.acquire = .ok ()) :
    (dispatch000 d "execute_query" (some a) db).result =
        .ok (errTextResp ("查询执行失败: " ++ nullQueryMsg)) ∧
      (dispatch000 d "execute_query" (some a) db).events =
        [Ev.acquire, Ev.stmt beginReadOnlySQL, Ev.stmt rollbackSQL, Ev.release] ∧
      (dispatch000 d "execute_query" (some a) db).db = db := by
  have hred : dispatch000 d "execute_query" (some a) db =
      executeQueryPooled d "query" (some a) db := rfl
  rw [hred]
  unfold executeQueryPooled
  rw [ha]
  dsimp only
  unfold executeQueryPooledBody
  dsimp only
  rw [stepStmt_begin d ⟨db, Session.auto, [Ev.acquire]⟩ rfl]
  dsimp only
  rw [hl]
  dsimp only
  rw [stepStmt_rollback]
  exact ⟨rfl, rfl, rfl⟩

/-- C3 witness: the amended behavior on a concrete argument object that lacks
`query`. -/
theorem missing_query_flows_to_driver_witness :
    (dispatch000 okDriver "execute_query" (some [("foo", JVal.num 1)]) (5 : Nat)).result =
        .ok (errTextResp ("查询执行失败: " ++ nullQueryMsg)) ∧
      (dispatch000 okDriver "execute_query" (some [("foo", JVal.num 1)]) (5 : Nat)).events =
        [Ev.acquire, Ev.stmt beginReadOnlySQL, Ev.stmt rollbackSQL, Ev.release] ∧
      (dispatch000 okDriver "execute_query" (some [("foo", JVal.num 1)]) (5 : Nat)).db = 5 :=
  missing_query_flows_to_driver okDriver [("foo", JVal.num 1)] 5 rfl rfl

/-- C3 counterexample: calling `execute_query` with an empty arguments object
(the required `query` field missing) is not rejected before touching the
database — the trace records the connection acquisition and the BEGIN
statement — and the failure surfaced is the caught driver error, produced
after those database operations, not an InvalidArgument raised before them. -/
theorem missing_query_db_ops_attempted :
    (dispatch000 okDriver "execute_query" (some []) (0 : Nat)).events =
        [Ev.acquire, Ev.stmt beginReadOnlySQL, Ev.stmt rollbackSQL, Ev.release] ∧
      Ev.stmt beginReadOnlySQL ∈ (dispatch000 okDriver "execute_query" (some []) (0 : Nat)).events ∧
      (dispatch000 okDriver "execute_query" (some []) (0 : Nat)).isErrResp = true := by
  refine ⟨?_, ?_, ?_⟩ <;> decide

/-- C7: `create_table(tableName, columns)` builds exactly the DDL string
`CREATE TABLE <tableName> (<name1> <type1>, <name2> <type2>, ...)` — the
`"<name> <type>"` pairs joined by `', '` — injecting the caller-supplied
table name, column names and types verbatim with no quoting or escaping, runs
exactly that statement on the acquired connection, and on success returns a
confirmation text naming the created table. -/
theorem create_table_ddl_verbatim {DB : Type} [DecidableEq DB] (d : Driver DB) (a : Args)
    (db : DB) (tn : String) (cols : List JVal) (db' : DB) (rows : Rows)
    (h1 : jsLookup a "tableName" = some (.str tn))
    (h2 : jsLookup a "columns" = some (.arr cols))
    (ha : d.acquire = .ok ())
    (hsem : d.sem (buildCreateTable tn cols) db = .ok (db', rows)) :
    (createTablePooled d (some a) db).result =
        .ok (okTextResp ("表 " ++ tn ++ " 创建成功")) ∧
      (createTablePooled d (some a) db).events =
        [Ev.acquire, Ev.stmt (buildCreateTable tn cols), Ev.release] ∧
      buildCreateTable tn cols = "CREATE TABLE " ++ tn ++ " (" ++
        String.intercalate ", " (cols.map buildColumnDef) ++ ")" ∧
      (∀ cn ct, buildColumnDef (JVal.obj [("name", JVal.str cn), ("type", JVal.str ct)]) =
        cn ++ " " ++ ct) := by
  unfold createTablePooled
  rw [ha]
  dsimp only
  unfold createTablePooledBody
  dsimp only
  rw [h2]
  dsimp only
  rw [h1]
  simp only [jsTemplate, jsToString]
  rw [stepStmt_auto d (buildCreateTable tn cols) ⟨db, Session.auto, [Ev.acquire]⟩
    (buildCreateTable_ne_begin tn cols) (buildCreateTable_ne_rollback tn cols) rfl]
  rw [hsem]
  dsimp only
  exact ⟨rfl, rfl, rfl, fun cn ct => rfl⟩

/-- C7 witness: creating `users(id integer, name text)` on a driver where the
DDL succeeds; the issued statement is the literal concatenation. -/
theorem create_table_ddl_verbatim_witness :
    (createTablePooled okDriver (some [("tableName", JVal.str "users"),
        ("columns", JVal.arr [JVal.obj [("name", JVal.str "id"), ("type", JVal.str "integer")],
          JVal.obj [("name", JVal.str "name"), ("type", JVal.str "text")]])]) (0 : Nat)).result =
        .ok (okTextResp ("表 " ++ "users" ++ " 创建成功")) ∧
      (createTablePooled okDriver (some [("tableName", JVal.str "users"),
        ("columns", JVal.arr [JVal.obj [("name", JVal.str "id"), ("type", JVal.str "integer")],
          JVal.obj [("name", JVal.str "name"), ("type", JVal.str "text")]])]) (0 : Nat)).events =
        [Ev.acquire, Ev.stmt (buildCreateTable "users"
          [JVal.obj [("name", JVal.str "id"), ("type", JVal.str "integer")],
           JVal.obj [("name", JVal.str "name"), ("type", JVal.str "text")]]), Ev.release] ∧
      buildCreateTable "users"
          [JVal.obj [("name", JVal.str "id"), ("type", JVal.str "integer")],
           JVal.obj [("name", JVal.str "name"), ("type", JVal.str "text")]] =
        "CREATE TABLE users (id integer, name text)" := by
  have h := create_table_ddl_verbatim okDriver
    [("tableName", JVal.str "users"),
     ("columns", JVal.arr [JVal.obj [("name", JVal.str "id"), ("type", JVal.str "integer")],
       JVal.obj [("name", JVal.str "name"), ("type", JVal.str "text")]])]
    (0 : Nat) "users"
    [JVal.obj [("name", JVal.str "id"), ("type", JVal.str "integer")],
     JVal.obj [("name", JVal.str "name"), ("type", JVal.str "text")]]
    0 [] rfl rfl rfl rfl
  exact ⟨h.1, h.2.1, by decide⟩

/-- C5: `insert_data(tableName, data)` with N records issues exactly one
`INSERT INTO <tableName> (<keys>) VALUES (<values>)` statement per record —
string values wrapped in single quotes, other scalars inlined by JavaScript
string coercion — sequentially on the same acquired connection (the trace is
one acquisition, the N inserts in record order, one release), and on success
returns a confirmation text reporting the table name and the count N. -/
theorem insert_data_per_record_statements {DB : Type} [DecidableEq DB] (d : Driver DB)
    (a : Args) (db : DB) (tn : String) (records : List JVal)
    (h1 : jsLookup a "tableName" = some (.str tn))
    (h2 : jsLookup a "data" = some (.arr records))
    (ha : d.acquire = .ok ())
    (hloop : (insertLoop d tn records ⟨db, Session.auto, [Ev.acquire]⟩).1 = .ok ()) :
    (insertDataPooled d (some a) db).result =
        .ok (okTextResp ("成功向 " ++ tn ++ " 插入 " ++ toString records.length ++ " 条数据")) ∧
      (insertDataPooled d (some a) db).events =
        [Ev.acquire] ++ records.map (fun r => Ev.stmt (buildInsert tn r)) ++ [Ev.release] ∧
      (∀ tn' r, buildInsert tn' r = "INSERT INTO " ++ tn' ++ " (" ++
        String.intercalate ", " (jsObjectKeys r) ++ ") VALUES (" ++
        String.intercalate ", " ((jsObjectValues r).map serializeInsertVal) ++ ")") ∧
      (∀ s, serializeInsertVal (.str s) = singleQuote ++ s ++ singleQuote) ∧
      (∀ n : Int, serializeInsertVal (.num n) = toString n) := by
  unfold insertDataPooled
  rw [ha]
  dsimp only
  unfold insertDataPooledBody
  dsimp only
  rw [h2]
  dsimp only
  rw [h1]
  simp only [jsTemplate, jsToString]
  obtain ⟨hev, _⟩ :=
    insertLoop_ok_facts d tn records ⟨db, Session.auto, [Ev.acquire]⟩ rfl hloop
  rw [hloop]
  dsimp only
  refine ⟨rfl, ?_, fun tn' r => rfl, fun s => rfl, fun n => rfl⟩
  rw [hev]

/-- C5 witness: inserting two records into `t`; the trace carries exactly the
two serialized INSERT statements in order and the success text reports the
count 2. -/
theorem insert_data_per_record_statements_witness :
    (insertDataPooled okDriver (some [("tableName", JVal.str "t"),
        ("data", JVal.arr [JVal.obj [("a", JVal.num 1)],
          JVal.obj [("b", JVal.str "x")]])]) (0 : Nat)).result =
        .ok (okTextResp ("成功向 " ++ "t" ++ " 插入 " ++
          toString [JVal.obj [("a", JVal.num 1)], JVal.obj [("b", JVal.str "x")]].length ++
          " 条数据")) ∧
      (insertDataPooled okDriver (some [("tableName", JVal.str "t"),
        ("data", JVal.arr [JVal.obj [("a", JVal.num 1)],
          JVal.obj [("b", JVal.str "x")]])]) (0 : Nat)).events =
        [Ev.acquire] ++ [JVal.obj [("a", JVal.num 1)],
          JVal.obj [("b", JVal.str "x")]].map (fun r => Ev.stmt (buildInsert "t" r)) ++
          [Ev.release] ∧
      buildInsert "t" (JVal.obj [("a", JVal.num 1)]) = "INSERT INTO t (a) VALUES (1)" := by
  have h := insert_data_per_record_statements okDriver
    [("tableName", JVal.str "t"),
     ("data", JVal.arr [JVal.obj [("a", JVal.num 1)], JVal.obj [("b", JVal.str "x")]])]
    (0 : Nat) "t" [JVal.obj [("a", JVal.num 1)], JVal.obj [("b", JVal.str "x")]]
    rfl rfl rfl rfl
  exact ⟨h.1, h.2.1, by decide⟩

/-- C6: when the record `bad` fails after the prefix `pre` succeeded, the
remaining records are never attempted — the trace contains exactly the inserts
for `pre` and the failing attempt for `bad` — the call returns an
error-flagged ToolResponse carrying the driver's message, the database keeps
the state produced by the successful prefix (nothing is rolled back), and no
transaction statement appears anywhere in the trace. -/
theorem insert_data_partial_failure {DB : Type} [DecidableEq DB] (d : Driver DB)
    (a : Args) (db : DB) (tn : String) (pre rest : List JVal) (bad : JVal) (e : String)
    (h1 : jsLookup a "tableName" = some (.str tn))
    (h2 : jsLookup a "data" = some (.arr (pre ++ bad :: rest)))
    (ha : d.acquire = .ok ())
    (hpre : (insertLoop d tn pre ⟨db, Session.auto, [Ev.acquire]⟩).1 = .ok ())
    (hbad : d.sem (buildInsert tn bad)
        (insertLoop d tn pre ⟨db, Session.auto, [Ev.acquire]⟩).2.db = .error e) :
    (insertDataPooled d (some a) db).result = .ok (errTextResp ("插入数据失败: " ++ e)) ∧
      (insertDataPooled d (some a) db).events =
        [Ev.acquire] ++ (pre ++ [bad]).map (fun r => Ev.stmt (buildInsert tn r)) ++
          [Ev.release] ∧
      (insertDataPooled d (some a) db).db =
        (insertLoop d tn pre ⟨db, Session.auto, [Ev.acquire]⟩).2.db ∧
      Ev.stmt beginReadOnlySQL ∉ (insertDataPooled d (some a) db).events ∧
      Ev.stmt rollbackSQL ∉ (insertDataPooled d (some a) db).events := by
  obtain ⟨hev1, hsess1⟩ :=
    insertLoop_ok_facts d tn pre ⟨db, Session.auto, [Ev.acquire]⟩ rfl hpre
  have hloop : insertLoop d tn (pre ++ bad :: rest) ⟨db, Session.auto, [Ev.acquire]⟩ =
      (.error e,
        ⟨(insertLoop d tn pre ⟨db, Session.auto, [Ev.acquire]⟩).2.db, Session.auto,
          (insertLoop d tn pre ⟨db, Session.auto, [Ev.acquire]⟩).2.events ++
            [Ev.stmt (buildInsert tn bad)]⟩) := by
    rw [insertLoop_append, hpre]
    dsimp only
    have hcons : insertLoop d tn (bad :: rest)
        (insertLoop d tn pre ⟨db, Session.auto, [Ev.acquire]⟩).2 =
        (match (stepStmt d (buildInsert tn bad)
            (insertLoop d tn pre ⟨db, Session.auto, [Ev.acquire]⟩).2).1 with
         | .ok _ => insertLoop d tn rest (stepStmt d (buildInsert tn bad)
            (insertLoop d tn pre ⟨db, Session.auto, [Ev.acquire]⟩).2).2
         | .error e2 => (.error e2, (stepStmt d (buildInsert tn bad)
            (insertLoop d tn pre ⟨db, Session.auto, [Ev.acquire]⟩).2).2)) := rfl
    rw [hcons, stepStmt_auto d (buildInsert tn bad) _
      (buildInsert_ne_begin tn bad) (buildInsert_ne_rollback tn bad) hsess1, hbad]
  have hevents : (insertDataPooled d (some a) db).events =
      [Ev.acquire] ++ (pre ++ [bad]).map (fun r => Ev.stmt (buildInsert tn r)) ++
        [Ev.release] := by
    unfold insertDataPooled
    rw [ha]
    dsimp only
    unfold insertDataPooledBody
    dsimp only
    rw [h2]
    dsimp only
    rw [h1]
    simp only [jsTemplate, jsToString]
    rw [hloop]
    dsimp only
    rw [hev1]
    simp
  refine ⟨?_, hevents, ?_, ?_, ?_⟩
  · unfold insertDataPooled
    rw [ha]
    dsimp only
    unfold insertDataPooledBody
    dsimp only
    rw [h2]
    dsimp only
    rw [h1]
    simp only [jsTemplate, jsToString]
    rw [hloop]
  · unfold insertDataPooled
    rw [ha]
    dsimp only
    unfold insertDataPooledBody
    dsimp only
    rw [h2]
    dsimp only
    rw [h1]
    simp only [jsTemplate, jsToString]
    rw [hloop]
  · rw [hevents]
    intro hmem
    simp only [List.mem_append, List.mem_map, List.mem_singleton, List.mem_cons,
      List.not_mem_nil, or_false] at hmem
    rcases hmem with (hacq | ⟨r, _, heq⟩) | hrel
    · exact Ev.noConfusion hacq
    · exact buildInsert_ne_begin tn r (by injection heq)
    · exact Ev.noConfusion hrel
  · rw [hevents]
    intro hmem
    simp only [List.mem_append, List.mem_map, List.mem_singleton, List.mem_cons,
      List.not_mem_nil, or_false] at hmem
    rcases hmem with (hacq | ⟨r, _, heq⟩) | hrel
    · exact Ev.noConfusion hacq
    · exact buildInsert_ne_rollback tn r (by injection heq)
    · exact Ev.noConfusion hrel

/-- C6 witness: four records into `t` on a driver where `{id: 3}` violates a
duplicate key — the two records before it are inserted (state 2), the fourth
is never attempted, and the error envelope carries the driver message. -/
theorem insert_data_partial_failure_witness :
    (insertDataPooled dupKeyDriver (some [("tableName", JVal.str "t"),
        ("data", JVal.arr [JVal.obj [("id", JVal.num 1)], JVal.obj [("id", JVal.num 2)],
          JVal.obj [("id", JVal.num 3)], JVal.obj [("id", JVal.num 4)]])]) (0 : Nat)).result =
        .ok (errTextResp ("插入数据失败: " ++ "duplicate key value")) ∧
      (insertDataPooled dupKeyDriver (some [("tableName", JVal.str "t"),
        ("data", JVal.arr [JVal.obj [("id", JVal.num 1)], JVal.obj [("id", JVal.num 2)],
          JVal.obj [("id", JVal.num 3)], JVal.obj [("id", JVal.num 4)]])]) (0 : Nat)).events =
        [Ev.acquire] ++ ([JVal.obj [("id", JVal.num 1)], JVal.obj [("id", JVal.num 2)]] ++
          [JVal.obj [("id", JVal.num 3)]]).map (fun r => Ev.stmt (buildInsert "t" r)) ++
          [Ev.release] ∧
      (insertDataPooled dupKeyDriver (some [("tableName", JVal.str "t"),
        ("data", JVal.arr [JVal.obj [("id", JVal.num 1)], JVal.obj [("id", JVal.num 2)],
          JVal.obj [("id", JVal.num 3)], JVal.obj [("id", JVal.num 4)]])]) (0 : Nat)).db = 2 := by
  have h := insert_data_partial_failure dupKeyDriver
    [("tableName", JVal.str "t"),
     ("data", JVal.arr [JVal.obj [("id", JVal.num 1)], JVal.obj [("id", JVal.num 2)],
       JVal.obj [("id", JVal.num 3)], JVal.obj [("id", JVal.num 4)]])]
    (0 : Nat) "t" [JVal.obj [("id", JVal.num 1)], JVal.obj [("id", JVal.num 2)]]
    [JVal.obj [("id", JVal.num 4)]] (JVal.obj [("id", JVal.num 3)]) "duplicate key value"
    rfl rfl rfl rfl rfl
  exact ⟨h.1, h.2.1, h.2.2.1.trans (by decide)⟩

theorem stepStmt_txn_ok_ro {DB : Type} [DecidableEq DB] (d : Driver DB) (q : String)
    (st : St DB) (p : DB) (rows : Rows)
    (hq1 : q ≠ beginReadOnlySQL) (hq2 : q ≠ rollbackSQL)
    (hsess : st.sess = Session.txn p true) (hsem : d.sem q p = .ok (p, rows)) :
    stepStmt d q st = (.ok rows, ⟨st.db, .txn p true, st.events ++ [.stmt q]⟩) := by
  unfold stepStmt
  rw [if_neg hq1, if_neg hq2, hsess]
  dsimp only
  rw [hsem]
  dsimp only
  rw [if_neg (by simp : ¬ (true = true ∧ p ≠ p))]

/-- C9: on success the pooled `execute_query`/`query` answers with a single
text that is exactly `JSON.stringify(result.rows, null, 2)` — the row set the
driver returned, in driver order, with no sorting or column filtering — and
in particular a row set `[{one: 1}]` serializes to the two-space-indented
pretty-printed text, and an empty row set to `[]`. -/
theorem execute_query_success_serialization {DB : Type} [DecidableEq DB] (d : Driver DB)
    (key : String) (a : Args) (db : DB) (q : String) (rows : Rows)
    (hl : jsLookup a key = some (.str q))
    (ha : d.acquire = .ok ())
    (hq1 : q ≠ beginReadOnlySQL) (hq2 : q ≠ rollbackSQL)
    (hsem : d.sem q db = .ok (db, rows)) :
    (executeQueryPooled d key (some a) db).result =
        .ok { content := [⟨"text", stringifyRows rows⟩], isError := false } ∧
      (executeQueryPooled d key (some a) db).events =
        [Ev.acquire, Ev.stmt beginReadOnlySQL, Ev.stmt q, Ev.stmt rollbackSQL, Ev.release] ∧
      stringifyRows [JVal.obj [("one", JVal.num 1)]] =
        "[\n  \x7b\n    \"one\": 1\n  \x7d\n]" ∧
      stringifyRows [] = "[]" := by
  unfold executeQueryPooled
  rw [ha]
  dsimp only
  unfold executeQueryPooledBody
  dsimp only
  rw [stepStmt_begin d ⟨db, Session.auto, [Ev.acquire]⟩ rfl]
  dsimp only
  rw [hl]
  dsimp only
  rw [stepStmt_txn_ok_ro d q _ db rows hq1 hq2 rfl hsem]
  dsimp only
  rw [stepStmt_rollback]
  exact ⟨rfl, rfl, by decide, by decide⟩

/-- C9 witness: the scenario `execute_query({sql: "SELECT 1 AS one"})` on a
driver returning the single row `{one: 1}` — the response text is the literal
pretty-printed JSON with two-space indentation. -/
theorem execute_query_success_serialization_witness :
    (executeQueryPooled selOneDriver "sql"
        (some [("sql", JVal.str "SELECT 1 AS one")]) (0 : Nat)).result =
        .ok { content := [⟨"text", "[\n  \x7b\n    \"one\": 1\n  \x7d\n]"⟩], isError := false } ∧
      (executeQueryPooled selOneDriver "sql"
        (some [("sql", JVal.str "SELECT 1 AS one")]) (0 : Nat)).events =
        [Ev.acquire, Ev.stmt beginReadOnlySQL, Ev.stmt "SELECT 1 AS one",
          Ev.stmt rollbackSQL, Ev.release] := by
  have h := execute_query_success_serialization selOneDriver "sql"
    [("sql", JVal.str "SELECT 1 AS one")] (0 : Nat) "SELECT 1 AS one"
    [JVal.obj [("one", JVal.num 1)]] rfl rfl (by decide) (by decide) rfl
  exact ⟨h.1.trans (congrArg Except.ok (by decide)), h.2.1⟩

/-- C8 (amended): `list_resources` emits exactly one descriptor per catalog
row, each with URI `postgres://<t>/schema` and mimeType `application/json`,
and for every table name `t` that does not contain a `/` the `read_resource`
parse — the third segment of the URI split on `/` — recovers exactly `t`.
A table name containing `/` (legal in PostgreSQL as a quoted identifier)
breaks the round trip: only the part before the first slash is recovered. -/
theorem resource_uri_round_trip {DB : Type} [DecidableEq DB] (d : Driver DB)
    (db db' : DB) (rows : Rows)
    (ha : d.acquire = .ok ())
    (hsem : d.sem catalogTablesSQL db = .ok (db', rows)) :
    (listResources d db).result = .ok (rows.map rowResource) ∧
      (rows.map rowResource).length = rows.length ∧
      (∀ row ∈ rows, (rowResource row).mimeType = "application/json") ∧
      (listResources d db).events = [Ev.acquire, Ev.stmt catalogTablesSQL, Ev.release] ∧
      (∀ row t, jsGetField row "table_name" = some (.str t) → '/' ∉ t.data →
        (rowResource row).uri = "postgres://" ++ t ++ "/schema" ∧
        readResourceTableName (rowResource row).uri = some t) := by
  have hred : listResources d db =
      (let p := stepStmt d catalogTablesSQL ⟨db, Session.auto, [Ev.acquire]⟩
       match p.1 with
       | .ok rows => ⟨.ok (rows.map rowResource), p.2.db, p.2.events ++ [.release]⟩
       | .error e => ⟨.error e, p.2.db, p.2.events ++ [.release]⟩) := by
    unfold listResources
    rw [ha]
  rw [hred]
  dsimp only
  rw [stepStmt_auto d catalogTablesSQL ⟨db, Session.auto, [Ev.acquire]⟩
    (by decide) (by decide) rfl, hsem]
  dsimp only
  refine ⟨rfl, by simp, fun row _ => rfl, rfl, ?_⟩
  intro row t hget hslash
  have huri : (rowResource row).uri = "postgres://" ++ t ++ "/schema" := by
    unfold rowResource
    rw [hget]
    simp only [jsTemplate, jsToString]
  refine ⟨huri, ?_⟩
  rw [huri]
  unfold readResourceTableName
  rw [jsSplit_uri t hslash]
  rfl

/-- C8 witness: the round trip on the concrete table name `users`, together
with the listing conclusions on an (empty) catalog answer. -/
theorem resource_uri_round_trip_witness :
    (listResources okDriver (0 : Nat)).result = .ok ([] : List ResourceDescriptor) ∧
      (listResources okDriver (0 : Nat)).events =
        [Ev.acquire, Ev.stmt catalogTablesSQL, Ev.release] ∧
      (rowResource (JVal.obj [("table_name", JVal.str "users")])).uri =
        "postgres://" ++ "users" ++ "/schema" ∧
      readResourceTableName (rowResource (JVal.obj [("table_name", JVal.str "users")])).uri =
        some "users" := by
  have h := resource_uri_round_trip okDriver (0 : Nat) 0 [] rfl rfl
  have hrt := h.2.2.2.2 (JVal.obj [("table_name", JVal.str "users")]) "users" rfl (by decide)
  exact ⟨h.1, h.2.2.2.1, hrt.1, hrt.2⟩

/-- C8 counterexample: a catalog table named `a/b` is listed with URI
`postgres://a/b/schema`, but `read_resource` parses the table name back as
`a`, not `a/b` — listing then reading does not round-trip this table name. -/
theorem resource_uri_slash_counterexample :
    (rowResource (JVal.obj [("table_name", JVal.str "a/b")])).uri = "postgres://a/b/schema" ∧
      readResourceTableName (rowResource (JVal.obj [("table_name", JVal.str "a/b")])).uri =
        some "a" ∧
      some "a" ≠ some ("a/b") := by
  refine ⟨?_, ?_, ?_⟩ <;> decide
